import Mathlib

/-!
# Native crash capture of xedit-app: a shallow embedding

Embedding of `crash/src/main/cpp` (`utils.cpp`, `stacktrace.cpp`, `stacktrace.h`,
`main.cpp`) and of three pieces of `treesitter/src/main/cpp` (the error position of
`query_init`, `language_symbol_type`, the out-of-bounds messages of `ts_node.cpp` and
`ts_query.cpp`).  C strings are `String`, machine integers are `Nat`/`Int` with explicit
wrap-around, a call whose behaviour C leaves undefined returns `none`.  The four target
architectures of the source (`arm`, `aarch64`, `i386`, `x86_64`) are told apart where
the code or the calling convention does; a pointer is null, points to a live object or
dangles.
-/

namespace Crash

/-! ## The C library formatter used by `asprintf` / `StringPrintf` -/

/-- One variadic argument slot as the formatter finds it: an integer value (held as the
mathematical value) or a pointer to a NUL-terminated string.  A conversion reads as many
low bits of the slot as its type has.  On the 64-bit targets (aarch64, x86_64) every
argument occupies one slot; on the 32-bit targets (arm, i386) a 64-bit argument occupies
two 32-bit words, which matters when a conversion for `int` is applied to it (see
`va_list`). -/
inductive VArg where
  | int (v : Int)
  | str (s : String)
  deriving DecidableEq, Repr

/-- Length modifier of a conversion: none, `h`, `l`, `ll`. -/
inductive LenMod where
  | none
  | h
  | l
  | ll
  deriving DecidableEq, Repr

/-- The part of a conversion specification read so far: the `0` flag, the field width
and the length modifier. -/
structure ConvSpec where
  zero : Bool
  width : Nat
  len : LenMod
  deriving DecidableEq, Repr

/-- Value of the low `bits` bits of a slot, read as an unsigned integer. -/
def wrapUnsigned (bits : Nat) (v : Int) : Nat :=
  (v % (2 : Int) ^ bits).toNat

/-- Value of the low `bits` bits of a slot, read as a two's complement integer. -/
def wrapSigned (bits : Nat) (v : Int) : Int :=
  if v % (2 : Int) ^ bits < (2 : Int) ^ (bits - 1) then v % (2 : Int) ^ bits
  else v % (2 : Int) ^ bits - (2 : Int) ^ bits

/-- Width in bits of the integer type a conversion reads: `int`, `short`, `long`
(`longBits`: 32 on arm and i386, 64 on aarch64 and x86_64), `long long`. -/
def intBits (longBits : Nat) : LenMod → Nat
  | .none => 32
  | .h => 16
  | .l => longBits
  | .ll => 64

/-- Right-justify `cs` in a field of `w` characters, filling with `c`. -/
def padLeft (c : Char) (w : Nat) (cs : List Char) : List Char :=
  List.replicate (w - cs.length) c ++ cs

/-- Decimal digits of a natural number. -/
def decDigits (n : Nat) : List Char := Nat.toDigits 10 n

/-- Lower-case hexadecimal digits of a natural number, as `%x` writes them. -/
def hexDigits (n : Nat) : List Char := Nat.toDigits 16 n

/-- Text of a signed decimal number, as `%d` without width writes it. -/
def decInt (v : Int) : List Char :=
  if v < 0 then '-' :: decDigits v.natAbs else decDigits v.natAbs

/-- Conversion `%d` (with flag `0` and width). -/
def render_d (sp : ConvSpec) (v : Int) : List Char :=
  if v < 0 then
    if sp.zero then '-' :: padLeft '0' (sp.width - 1) (decDigits v.natAbs)
    else padLeft ' ' sp.width ('-' :: decDigits v.natAbs)
  else padLeft (if sp.zero then '0' else ' ') sp.width (decDigits v.natAbs)

/-- Conversion `%x` (with flag `0` and width). -/
def render_x (sp : ConvSpec) (u : Nat) : List Char :=
  padLeft (if sp.zero then '0' else ' ') sp.width (hexDigits u)

/-- Conversion `%u` (with flag `0` and width). -/
def render_u (sp : ConvSpec) (u : Nat) : List Char :=
  padLeft (if sp.zero then '0' else ' ') sp.width (decDigits u)

/-- Conversion `%s` (with width). -/
def render_s (sp : ConvSpec) (s : String) : List Char :=
  padLeft ' ' sp.width s.data

/-- The formatter behind `asprintf`: walks the format, `none` while copying text and
`some sp` inside a conversion specification.  Conversions `d`, `x`, `u`, `s` and `%%` with
the flag `0`, a width and the length modifiers `h`, `l`, `ll` are supported.  A
conversion with no argument left, `%s` applied to an integer slot or `%d`/`%x`/`%u`
applied to a string pointer is undefined behaviour: `none`.  Surplus arguments are ignored. -/
def vformat (longBits : Nat) : List Char → Option ConvSpec → List VArg → Option (List Char)
  | [], none, _ => some []
  | [], some _, _ => none
  | c :: cs, none, args =>
    if c = '%' then vformat longBits cs (some ⟨false, 0, .none⟩) args
    else (vformat longBits cs none args).map (fun out => c :: out)
  | c :: cs, some sp, args =>
    if c = 'd' then
      match args with
      | .int v :: rest =>
        (vformat longBits cs none rest).map
          (fun out => render_d sp (wrapSigned (intBits longBits sp.len) v) ++ out)
      | _ => none
    else if c = 'x' then
      match args with
      | .int v :: rest =>
        (vformat longBits cs none rest).map
          (fun out => render_x sp (wrapUnsigned (intBits longBits sp.len) v) ++ out)
      | _ => none
    else if c = 's' then
      match args with
      | .str s :: rest =>
        (vformat longBits cs none rest).map (fun out => render_s sp s ++ out)
      | _ => none
    else if c = 'u' then
      match args with
      | .int v :: rest =>
        (vformat longBits cs none rest).map
          (fun out => render_u sp (wrapUnsigned (intBits longBits sp.len) v) ++ out)
      | _ => none
    else if c = '%' then (vformat longBits cs none args).map (fun out => '%' :: out)
    else if c = 'h' then vformat longBits cs (some { sp with len := .h }) args
    else if c = 'l' then
      vformat longBits cs (some { sp with len := if sp.len = .l then .ll else .l }) args
    else if c = '0' ∧ sp.width = 0 ∧ sp.zero = false then
      vformat longBits cs (some { sp with zero := true }) args
    else if c.isDigit then
      vformat longBits cs (some { sp with width := sp.width * 10 + (c.toNat - 48) }) args
    else none

/-- `asprintf(&result, fmt, args...)`: the formatted text, or `none` when the call is
undefined. -/
def asprintf (longBits : Nat) (fmt : String) (args : List VArg) : Option String :=
  (vformat longBits fmt.data none args).map String.mk

/-- An argument of a variadic call as the caller passes it, with its C type: `int`,
`uint64_t`, `const char *`. -/
inductive CArg where
  | int (v : Int)
  | uint64 (v : Nat)
  | str (s : String)
  deriving DecidableEq, Repr

/-- The slots the arguments of a variadic call occupy.  On the 64-bit targets every
argument takes one slot.  On arm and i386 (`longBits = 32`) the slots are 32-bit words
and a `uint64_t` takes two of them, the low word first, so that a conversion for
`unsigned int` reads the low word and leaves the high word to the next conversion.  (On
arm a 64-bit argument is aligned to an even word; in every call of `get_error_string` it
is preceded by an even number of words, so no padding word is inserted.) -/
def va_list (longBits : Nat) : List CArg → List VArg
  | [] => []
  | .int v :: rest => .int v :: va_list longBits rest
  | .str text :: rest => .str text :: va_list longBits rest
  | .uint64 v :: rest =>
    if longBits = 32 then
      .int ((v % 2 ^ 32 : Nat) : Int) :: .int ((v / 2 ^ 32 : Nat) : Int)
        :: va_list longBits rest
    else .int (v : Int) :: va_list longBits rest

/-- `s` occurs in `t` as a contiguous piece of text. -/
def occursIn (s t : String) : Prop := s.data <:+: t.data

/-- Search for `s` as a contiguous piece of `t`, trying every position from the left. -/
def findInfix (s : List Char) : List Char → Bool
  | [] => s.isEmpty
  | c :: t => s.isPrefixOf (c :: t) || findInfix s t

instance (s t : String) : Decidable (occursIn s t) :=
  decidable_of_iff (findInfix s.data t.data = true) (by
    unfold occursIn
    generalize t.data = l
    induction l with
    | nil => simp [findInfix, List.isEmpty_iff]
    | cons c l ih =>
      simp only [findInfix, Bool.or_eq_true, ih, List.isPrefixOf_iff_prefix]
      exact (List.infix_cons_iff).symm)

/-! ## Signal numbers and sub-codes (`<signal.h>`, Linux values shared by arm, aarch64,
i386 and x86_64) -/

abbrev SIGHUP : Int := 1
abbrev SIGINT : Int := 2
abbrev SIGQUIT : Int := 3
abbrev SIGILL : Int := 4
abbrev SIGTRAP : Int := 5
abbrev SIGABRT : Int := 6
abbrev SIGBUS : Int := 7
abbrev SIGFPE : Int := 8
abbrev SIGKILL : Int := 9
abbrev SIGUSR1 : Int := 10
abbrev SIGSEGV : Int := 11
abbrev SIGUSR2 : Int := 12
abbrev SIGPIPE : Int := 13
abbrev SIGALRM : Int := 14
abbrev SIGTERM : Int := 15
abbrev SIGCHLD : Int := 17
abbrev SIGCONT : Int := 18
abbrev SIGSTOP : Int := 19
abbrev SIGTSTP : Int := 20
abbrev SIGTTIN : Int := 21
abbrev SIGTTOU : Int := 22
abbrev SIGURG : Int := 23
abbrev SIGXCPU : Int := 24
abbrev SIGXFSZ : Int := 25
abbrev SIGVTALRM : Int := 26
abbrev SIGPROF : Int := 27
abbrev SIGPOLL : Int := 29
abbrev SIGSYS : Int := 31

abbrev ILL_ILLOPC : Int := 1
abbrev ILL_ILLOPN : Int := 2
abbrev ILL_ILLADR : Int := 3
abbrev ILL_ILLTRP : Int := 4
abbrev ILL_PRVOPC : Int := 5
abbrev ILL_PRVREG : Int := 6
abbrev ILL_COPROC : Int := 7
abbrev ILL_BADSTK : Int := 8

abbrev FPE_INTDIV : Int := 1
abbrev FPE_INTOVF : Int := 2
abbrev FPE_FLTDIV : Int := 3
abbrev FPE_FLTOVF : Int := 4
abbrev FPE_FLTUND : Int := 5
abbrev FPE_FLTRES : Int := 6
abbrev FPE_FLTINV : Int := 7
abbrev FPE_FLTSUB : Int := 8

abbrev SEGV_MAPERR : Int := 1
abbrev SEGV_ACCERR : Int := 2

abbrev BUS_ADRALN : Int := 1
abbrev BUS_ADRERR : Int := 2
abbrev BUS_OBJERR : Int := 3

abbrev TRAP_BRKPT : Int := 1
abbrev TRAP_TRACE : Int := 2

abbrev CLD_EXITED : Int := 1
abbrev CLD_KILLED : Int := 2
abbrev CLD_DUMPED : Int := 3
abbrev CLD_TRAPPED : Int := 4
abbrev CLD_STOPPED : Int := 5
abbrev CLD_CONTINUED : Int := 6

abbrev POLL_IN : Int := 1
abbrev POLL_OUT : Int := 2
abbrev POLL_MSG : Int := 3
abbrev POLL_ERR : Int := 4
abbrev POLL_PRI : Int := 5
abbrev POLL_HUP : Int := 6

abbrev SI_USER : Int := 0
abbrev SI_QUEUE : Int := -1
abbrev SI_TIMER : Int := -2
abbrev SI_MESGQ : Int := -3
abbrev SI_ASYNCIO : Int := -4

/-! ## `utils.cpp` -/

/-- `indent(count)`: `count` spaces. -/
def indent (count : Nat) : String := String.mk (List.replicate count ' ')

/-- The local `format` of `get_error_string`. -/
def format : String := "signal: %d (%s), code: %d (%s), fault addr: 0x%x (%s)"

/-- The local `format2` of `get_error_string`. -/
def format2 : String := "signal: %d (%s), fault addr: 0x%x (%s)"

/-- `get_error_string(signal, code, addr)` as compiled for a target whose `long` has
`longBits` bits (32: arm, i386; 64: aarch64, x86_64): the nested `switch` of `utils.cpp`,
every `asprintf` call with the format and the arguments the source passes, in the
source's order and with their C types.  `addr` is the `uint64_t` fault address.  `none`
when the chosen call is undefined (the result pointer is then not a text). -/
def get_error_string (longBits : Nat) (signal : Int) (code : Int) (addr : Nat) :
    Option String :=
  if signal = SIGILL then
    if code = ILL_ILLOPC then
      asprintf longBits format (va_list longBits [.int signal, .str "SIGILL", .int code, .str "ILL_ILLOPC", .uint64 addr, .str "Illegal opcode"])
    else if code = ILL_ILLOPN then
      asprintf longBits format (va_list longBits [.int signal, .str "SIGILL", .int code, .str "ILL_ILLOPN", .uint64 addr, .str "Illegal operand"])
    else if code = ILL_ILLADR then
      asprintf longBits format (va_list longBits [.int signal, .str "SIGILL", .int code, .str "ILL_ILLADR", .uint64 addr, .str "Illegal addressing mode"])
    else if code = ILL_ILLTRP then
      asprintf longBits format (va_list longBits [.int signal, .str "SIGILL", .int code, .str "ILL_ILLTRP", .uint64 addr, .str "Illegal trap"])
    else if code = ILL_PRVOPC then
      asprintf longBits format (va_list longBits [.int signal, .str "SIGILL", .int code, .str "ILL_PRVOPC", .uint64 addr, .str "Privileged opcode"])
    else if code = ILL_PRVREG then
      asprintf longBits format (va_list longBits [.int signal, .str "SIGILL", .int code, .str "ILL_PRVREG", .uint64 addr, .str "Privileged register"])
    else if code = ILL_COPROC then
      asprintf longBits format (va_list longBits [.int signal, .str "SIGILL", .int code, .str "ILL_COPROC", .uint64 addr, .str "Coprocessor error"])
    else if code = ILL_BADSTK then
      asprintf longBits format (va_list longBits [.int signal, .str "SIGILL", .int code, .str "ILL_BADSTK", .uint64 addr, .str "Internal stack error"])
    else asprintf longBits format2 (va_list longBits [.int signal, .str "SIGILL", .uint64 addr, .str "Illegal operation"])
  else if signal = SIGFPE then
    if code = FPE_INTDIV then
      asprintf longBits format (va_list longBits [.int signal, .str "SIGFPE", .int code, .str "FPE_INTDIV", .uint64 addr, .str "Integer divide by zero"])
    else if code = FPE_INTOVF then
      asprintf longBits format (va_list longBits [.int signal, .str "SIGFPE", .int code, .str "FPE_INTOVF", .uint64 addr, .str "Integer overflow"])
    else if code = FPE_FLTDIV then
      asprintf longBits format (va_list longBits [.int signal, .str "SIGFPE", .int code, .str "FPE_INTDIV", .uint64 addr, .str "Floating-point divide by zero"])
    else if code = FPE_FLTOVF then
      asprintf longBits format (va_list longBits [.int signal, .str "SIGFPE", .int code, .str "FPE_FLTOVF", .uint64 addr, .str "Floating-point overflow"])
    else if code = FPE_FLTUND then
      asprintf longBits format (va_list longBits [.int signal, .str "SIGFPE", .int code, .str "FPE_FLTUND", .uint64 addr, .str "Floating-point underflow"])
    else if code = FPE_FLTRES then
      asprintf longBits format (va_list longBits [.int signal, .str "SIGFPE", .int code, .str "FPE_FLTRES", .uint64 addr, .str "Floating-point inexact result"])
    else if code = FPE_FLTINV then
      asprintf longBits format (va_list longBits [.int signal, .str "SIGFPE", .int code, .str "FPE_FLTINV", .uint64 addr, .str "Invalid floating-point operation"])
    else if code = FPE_FLTSUB then
      asprintf longBits format (va_list longBits [.int signal, .str "SIGFPE", .int code, .str "FPE_FLTSUB", .uint64 addr, .str "Subscript out of range"])
    else asprintf longBits format2 (va_list longBits [.int signal, .str "SIGFPE", .uint64 addr, .str "Floating-point"])
  else if signal = SIGSEGV then
    if code = SEGV_MAPERR then
      asprintf longBits format (va_list longBits [.int signal, .str "SIGSEGV", .int code, .str "SEGV_MAPERR", .uint64 addr, .str "Address not mapped to object"])
    else if code = SEGV_ACCERR then
      asprintf longBits format (va_list longBits [.int signal, .str "SIGSEGV", .int code, .str "SEGV_ACCERR", .uint64 addr, .str "Invalid permissions for mapped object"])
    else asprintf longBits format2 (va_list longBits [.int signal, .str "SIGSEGV", .int code, .str "SEGV_ACCERR", .uint64 addr, .str "Segmentation violation"])
  else if signal = SIGBUS then
    if code = BUS_ADRALN then
      asprintf longBits format (va_list longBits [.int signal, .str "SIGBUS", .int code, .str "BUS_ADRALN", .uint64 addr, .str "Invalid address alignment"])
    else if code = BUS_ADRERR then
      asprintf longBits format (va_list longBits [.int signal, .str "SIGBUS", .int code, .str "BUS_ADRERR", .uint64 addr, .str "Nonexistent physical address"])
    else if code = BUS_OBJERR then
      asprintf longBits format (va_list longBits [.int signal, .str "SIGBUS", .int code, .str "BUS_OBJERR", .uint64 addr, .str "Object-specific hardware error"])
    else asprintf longBits format2 (va_list longBits [.int signal, .str "SIGBUS", .uint64 addr, .str "Bus error"])
  else if signal = SIGTRAP then
    if code = TRAP_BRKPT then
      asprintf longBits format (va_list longBits [.int signal, .str "SIGTRAP", .int code, .str "TRAP_BRKPT", .uint64 addr, .str "Process breakpoint"])
    else if code = TRAP_TRACE then
      asprintf longBits format (va_list longBits [.int signal, .str "SIGTRAP", .int code, .str "TRAP_TRACE", .uint64 addr, .str "Process trace trap"])
    else asprintf longBits format (va_list longBits [.int signal, .str "SIGTRAP", .uint64 addr, .str "Trap"])
  else if signal = SIGCHLD then
    if code = CLD_EXITED then
      asprintf longBits format (va_list longBits [.int signal, .str "SIGCHLD", .int code, .str "CLD_EXITED", .uint64 addr, .str "Child has exited"])
    else if code = CLD_KILLED then
      asprintf longBits format (va_list longBits [.int signal, .str "SIGCHLD", .int code, .str "CLD_KILLED", .uint64 addr, .str "Child has terminated abnormally and did not create a core file"])
    else if code = CLD_DUMPED then
      asprintf longBits format (va_list longBits [.int signal, .str "SIGCHLD", .int code, .str "CLD_DUMPED", .uint64 addr, .str "Child has terminated abnormally and created a core file"])
    else if code = CLD_TRAPPED then
      asprintf longBits format (va_list longBits [.int signal, .str "SIGCHLD", .int code, .str "CLD_TRAPPED", .uint64 addr, .str "Traced child has trapped"])
    else if code = CLD_STOPPED then
      asprintf longBits format (va_list longBits [.int signal, .str "SIGCHLD", .int code, .str "CLD_STOPPED", .uint64 addr, .str "Child has stopped"])
    else if code = CLD_CONTINUED then
      asprintf longBits format (va_list longBits [.int signal, .str "SIGCHLD", .int code, .str "CLD_CONTINUED", .uint64 addr, .str "Stopped child has continued"])
    else asprintf longBits format (va_list longBits [.int signal, .str "SIGCHLD", .uint64 addr, .str "Child"])
  else if signal = SIGPOLL then
    if code = POLL_IN then
      asprintf longBits format (va_list longBits [.int signal, .str "SIGPOLL", .int code, .str "POLL_IN", .uint64 addr, .str "Data input available"])
    else if code = POLL_OUT then
      asprintf longBits format (va_list longBits [.int signal, .str "SIGPOLL", .int code, .str "POLL_OUT", .uint64 addr, .str "Output buffers available"])
    else if code = POLL_MSG then
      asprintf longBits format (va_list longBits [.int signal, .str "SIGPOLL", .int code, .str "POLL_MSG", .uint64 addr, .str "Input message available"])
    else if code = POLL_ERR then
      asprintf longBits format (va_list longBits [.int signal, .str "SIGPOLL", .int code, .str "POLL_ERR", .uint64 addr, .str "I/O error"])
    else if code = POLL_PRI then
      asprintf longBits format (va_list longBits [.int signal, .str "SIGPOLL", .int code, .str "POLL_PRI", .uint64 addr, .str "High priority input available"])
    else if code = POLL_HUP then
      asprintf longBits format (va_list longBits [.int signal, .str "SIGPOLL", .int code, .str "POLL_HUP", .uint64 addr, .str "Device disconnected"])
    else asprintf longBits format2 (va_list longBits [.int signal, .str "SIGPOLL", .uint64 addr, .str "Pool"])
  else if signal = SIGABRT then
    asprintf longBits format2 (va_list longBits [.int signal, .str "SIGABRT", .uint64 addr, .str "Process abort signal"])
  else if signal = SIGALRM then
    asprintf longBits format2 (va_list longBits [.int signal, .str "SIGALRM", .uint64 addr, .str "Alarm clock"])
  else if signal = SIGCONT then
    asprintf longBits format2 (va_list longBits [.int signal, .str "SIGCONT", .uint64 addr, .str "Continue executing, if stopped"])
  else if signal = SIGHUP then
    asprintf longBits format2 (va_list longBits [.int signal, .str "SIGHUP", .uint64 addr, .str "Hangup"])
  else if signal = SIGINT then
    asprintf longBits format2 (va_list longBits [.int signal, .str "SIGINT", .uint64 addr, .str "Terminal interrupt signal"])
  else if signal = SIGKILL then
    asprintf longBits format2 (va_list longBits [.int signal, .str "SIGKILL", .uint64 addr, .str "Kill"])
  else if signal = SIGPIPE then
    asprintf longBits format2 (va_list longBits [.int signal, .str "SIGPIPE", .uint64 addr, .str "Write on a pipe with no one to read it"])
  else if signal = SIGQUIT then
    asprintf longBits format2 (va_list longBits [.int signal, .str "SIGQUIT", .uint64 addr, .str "Terminal quit signal"])
  else if signal = SIGSTOP then
    asprintf longBits format2 (va_list longBits [.int signal, .str "SIGSTOP", .uint64 addr, .str "Stop executing"])
  else if signal = SIGTERM then
    asprintf longBits format2 (va_list longBits [.int signal, .str "SIGTERM", .uint64 addr, .str "Termination signal"])
  else if signal = SIGTSTP then
    asprintf longBits format2 (va_list longBits [.int signal, .str "SIGTSTP", .uint64 addr, .str "Terminal stop signal"])
  else if signal = SIGTTIN then
    asprintf longBits format2 (va_list longBits [.int signal, .str "SIGTTIN", .uint64 addr, .str "Background process attempting read"])
  else if signal = SIGTTOU then
    asprintf longBits format2 (va_list longBits [.int signal, .str "SIGTTOU", .uint64 addr, .str "Background process attempting write"])
  else if signal = SIGUSR1 then
    asprintf longBits format2 (va_list longBits [.int signal, .str "SIGUSR1", .uint64 addr, .str "User-defined signal 1"])
  else if signal = SIGUSR2 then
    asprintf longBits format2 (va_list longBits [.int signal, .str "SIGUSR2", .uint64 addr, .str "User-defined signal 2"])
  else if signal = SIGPROF then
    asprintf longBits format2 (va_list longBits [.int signal, .str "SIGPROF", .uint64 addr, .str "Profiling timer expired"])
  else if signal = SIGSYS then
    asprintf longBits format2 (va_list longBits [.int signal, .str "SIGSYS", .uint64 addr, .str "Bad system call"])
  else if signal = SIGVTALRM then
    asprintf longBits format2 (va_list longBits [.int signal, .str "SIGVTALRM", .uint64 addr, .str "Virtual timer expired"])
  else if signal = SIGURG then
    asprintf longBits format2 (va_list longBits [.int signal, .str "SIGURG", .uint64 addr, .str "High bandwidth data is available at a socket"])
  else if signal = SIGXCPU then
    asprintf longBits format2 (va_list longBits [.int signal, .str "SIGXCPU", .uint64 addr, .str "CPU time limit exceeded"])
  else if signal = SIGXFSZ then
    asprintf longBits format2 (va_list longBits [.int signal, .str "SIGXFSZ", .uint64 addr, .str "File size limit exceeded"])
  else
    if code = SI_USER then
      asprintf longBits format (va_list longBits [.int signal, .str "Unknown", .int code, .str "SI_USER", .uint64 addr, .str "Signal sent by kill()"])
    else if code = SI_QUEUE then
      asprintf longBits format (va_list longBits [.int signal, .str "Unknown", .int code, .str "SI_QUEUE", .uint64 addr, .str "Signal sent by the sigqueue()"])
    else if code = SI_TIMER then
      asprintf longBits format (va_list longBits [.int signal, .str "Unknown", .int code, .str "SI_TIMER", .uint64 addr, .str "Signal generated by expiration of a timer set by timer_settime()"])
    else if code = SI_ASYNCIO then
      asprintf longBits format (va_list longBits [.int signal, .str "Unknown", .int code, .str "SI_ASYNCIO", .uint64 addr, .str "Signal generated by completion of an asynchronous I/O request"])
    else if code = SI_MESGQ then
      asprintf longBits format (va_list longBits [.int signal, .str "Unknown", .int code, .str "SI_MESGQ", .uint64 addr, .str "Signal generated by arrival of a message on an empty message queue"])
    else asprintf longBits format (va_list longBits [.int signal, .str "Unknown", .int code, .str "Unknown", .uint64 addr, .str "Unknown signal"])

/-! ## `<signal.h>` / `<ucontext.h>` / `<dlfcn.h>` data, per target architecture -/

/-- The fields of `siginfo_t` the crash module reads. -/
structure siginfo_t where
  si_signo : Int
  si_code : Int
  deriving DecidableEq, Repr

/-- `struct sigcontext` of arm (all fields `unsigned long`, 32 bits). -/
structure arm_sigcontext where
  trap_no : Nat
  error_code : Nat
  oldmask : Nat
  arm_r0 : Nat
  arm_r1 : Nat
  arm_r2 : Nat
  arm_r3 : Nat
  arm_r4 : Nat
  arm_r5 : Nat
  arm_r6 : Nat
  arm_r7 : Nat
  arm_r8 : Nat
  arm_r9 : Nat
  arm_r10 : Nat
  arm_fp : Nat
  arm_ip : Nat
  arm_sp : Nat
  arm_lr : Nat
  arm_pc : Nat
  arm_cpsr : Nat
  fault_address : Nat
  deriving DecidableEq, Repr

/-- `struct sigcontext` of aarch64 (64-bit fields; `regs` holds x0..x30). -/
structure aarch64_sigcontext where
  fault_address : Nat
  regs : Fin 31 → Nat
  sp : Nat
  pc : Nat
  pstate : Nat

/-- `struct _libc_fpstate` of i386, the fields the dump reads (`unsigned long`). -/
structure i386_fpstate where
  cw : Nat
  sw : Nat
  tag : Nat
  ipoff : Nat
  cssel : Nat
  dataoff : Nat
  datasel : Nat
  status : Nat
  deriving DecidableEq, Repr

/-- `mcontext_t` of i386: the general registers `gregs[19]` (EAX, ESP, EIP, ...) and the
pointer `fpregs` to the floating-point state (`none` for a null pointer). -/
structure i386_mcontext where
  gregs : Fin 19 → Nat
  fpregs : Option i386_fpstate

/-- `struct _libc_fpstate` of x86_64, the fields the dump reads (`cwd`, `swd`, `ftw`,
`fop` 16 bits; `rip`, `rdp` 64 bits; `mxcsr`, `mxcr_mask` 32 bits). -/
structure x86_64_fpstate where
  cwd : Nat
  swd : Nat
  ftw : Nat
  fop : Nat
  rip : Nat
  rdp : Nat
  mxcsr : Nat
  mxcr_mask : Nat
  deriving DecidableEq, Repr

/-- `mcontext_t` of x86_64: the general registers `gregs[23]` (RAX, RSP, RIP, ...) and
the pointer `fpregs` to the floating-point state (`none` for a null pointer). -/
structure x86_64_mcontext where
  gregs : Fin 23 → Nat
  fpregs : Option x86_64_fpstate

/-- Index of the instruction pointer in `gregs` of x86_64. -/
def REG_RIP : Fin 23 := 16

/-- Index of the stack pointer in `gregs` of x86_64. -/
def REG_RSP : Fin 23 := 15

/-- Index of the instruction pointer in `gregs` of i386. -/
def REG_EIP : Fin 19 := 14

/-- Index of the stack pointer in `gregs` of i386. -/
def REG_ESP : Fin 19 := 7

/-- The machine context `uc_mcontext` of a `ucontext_t`; the constructor is the target
architecture the library was compiled for (the `#if defined(__arm__)` ... branches). -/
inductive ucontext_t where
  | arm (uc_mcontext : arm_sigcontext)
  | aarch64 (uc_mcontext : aarch64_sigcontext)
  | i386 (uc_mcontext : i386_mcontext)
  | x86_64 (uc_mcontext : x86_64_mcontext)

/-- Width of `uintptr_t` and of `long` on the architecture of a machine context. -/
def ucontext_t.wordBits : ucontext_t → Nat
  | .arm _ => 32
  | .aarch64 _ => 64
  | .i386 _ => 32
  | .x86_64 _ => 64

/-- `Dl_info` as filled by `dladdr`; a null `dli_fname` / `dli_sname` is `none`, null
`dli_fbase` / `dli_saddr` is `0`. -/
structure Dl_info where
  dli_fname : Option String
  dli_fbase : Nat
  dli_sname : Option String
  dli_saddr : Nat
  deriving DecidableEq, Repr

/-- The platform services `dump_stacktrace` calls: `dladdr` (`none` when it returns 0,
no mapping contains the address) and `abi::__cxa_demangle` (`none` when it returns
null, the name cannot be demangled). -/
structure Loader where
  dladdr : Nat → Option Dl_info
  cxa_demangle : String → Option String

/-! ## `stacktrace.h` / `stacktrace.cpp` -/

/-- Capacity of `frames`. -/
def STACK_FRAMES_MAX : Nat := 32

/-- A pointer to an object of type `α` as the program can use it: null, pointing to a
live object (given by its content), or dangling, the object it pointed to being gone.
The pointers kept in `err_context_t` point into the signal frame, the `siginfo_t` and
the `ucontext_t` the kernel builds for one invocation of the handler; that frame is
gone once the handler has returned. -/
inductive Ptr (α : Type) where
  | null
  | live (target : α)
  | dangling

/-- Dereference of a pointer: defined for a pointer to a live object only. -/
def Ptr.deref {α : Type} : Ptr α → Option α
  | .live target => some target
  | _ => none

/-- What a pointer is worth once the object it points to has gone. -/
def Ptr.expire {α : Type} : Ptr α → Ptr α
  | .null => .null
  | _ => .dangling

/-- `err_context_t`.  `si` and `sc` are pointers, not copies.  `size` is a `uint32_t`.
`frames i` for `i < STACK_FRAMES_MAX` is the array element, for larger `i` the memory
that follows the array. -/
structure err_context_t where
  si : Ptr siginfo_t
  sc : Ptr ucontext_t
  size : Nat
  frames : Nat → Nat

/-- `pc_from_ucontext`. -/
def pc_from_ucontext : ucontext_t → Nat
  | .arm uc_mcontext => uc_mcontext.arm_pc
  | .aarch64 uc_mcontext => uc_mcontext.pc
  | .x86_64 uc_mcontext => uc_mcontext.gregs REG_RIP
  | .i386 uc_mcontext => uc_mcontext.gregs REG_EIP

/-- `get_fault_address`. -/
def get_fault_address : ucontext_t → Nat
  | .arm uc_mcontext => uc_mcontext.fault_address
  | .aarch64 uc_mcontext => uc_mcontext.fault_address
  | .i386 _ => 0
  | .x86_64 _ => 0

/-- `get_register_snapshot`: one `asprintf` per architecture, with the source's format
and arguments.  `none` when `fpregs` is null on i386 / x86_64 (null dereference). -/
def get_register_snapshot : ucontext_t → Option String
  | .arm m =>
    asprintf 32
      ("%s r0 %08lx  r1 %08lx  r2 %08lx  r3 %08lx\n" ++
       "%s r4 %08lx  r5 %08lx  r6 %08lx  r7 %08lx\n" ++
       "%s r8 %08lx  r9 %08lx  r10 %08lx  fp %08lx\n" ++
       "%s ip %08lx  sp %08lx  lr %08lx  pc %08lx\n" ++
       "%s cpsr %08lx\n")
      [.str (indent 4), .int m.arm_r0, .int m.arm_r1, .int m.arm_r2, .int m.arm_r3,
       .str (indent 4), .int m.arm_r4, .int m.arm_r5, .int m.arm_r6, .int m.arm_r7,
       .str (indent 4), .int m.arm_r8, .int m.arm_r9, .int m.arm_r10, .int m.arm_fp,
       .str (indent 4), .int m.arm_ip, .int m.arm_sp, .int m.arm_lr, .int m.arm_pc,
       .str (indent 4), .int m.arm_cpsr]
  | .aarch64 m =>
    asprintf 64
      ("%s x0 %016llx  x1 %016llx  x2 %016llx  x3 %016llx\n" ++
       "%s x4 %016llx  x5 %016llx  x6 %016llx  x7 %016llx\n" ++
       "%s x8 %016llx  x9 %016llx  x10 %016llx  x11 %016llx\n" ++
       "%s x12 %016llx  x13 %016llx  x14 %016llx  x15 %016llx\n" ++
       "%s x16 %016llx  x17 %016llx  x18 %016llx  x19 %016llx\n" ++
       "%s x20 %016llx  x21 %016llx  x22 %016llx  x23 %016llx\n" ++
       "%s x24 %016llx  x25 %016llx  x26 %016llx  x27 %016llx\n" ++
       "%s x28 %016llx  x29 %016llx  x30 %016llx\n" ++
       "%s sp %016llx  pc %016llx  pstate %016llx\n")
      [.str (indent 4), .int (m.regs 0), .int (m.regs 1), .int (m.regs 2), .int (m.regs 3),
       .str (indent 4), .int (m.regs 4), .int (m.regs 5), .int (m.regs 6), .int (m.regs 7),
       .str (indent 4), .int (m.regs 8), .int (m.regs 9), .int (m.regs 10), .int (m.regs 11),
       .str (indent 4), .int (m.regs 12), .int (m.regs 13), .int (m.regs 14), .int (m.regs 15),
       .str (indent 4), .int (m.regs 16), .int (m.regs 17), .int (m.regs 18), .int (m.regs 19),
       .str (indent 4), .int (m.regs 20), .int (m.regs 21), .int (m.regs 22), .int (m.regs 23),
       .str (indent 4), .int (m.regs 24), .int (m.regs 25), .int (m.regs 26), .int (m.regs 27),
       .str (indent 4), .int (m.regs 28), .int (m.regs 29), .int (m.regs 30),
       .str (indent 4), .int m.sp, .int m.pc, .int m.pstate]
  | .i386 m =>
    match m.fpregs with
    | none => none
    | some fpregs =>
      asprintf 32
        ("%s cw %08lx  sw %08lx  tag %08lx  ipoff %08lx\n" ++
         "%s cssel %08lx  dataoff %08lx  datasel %08lx  status %08lx\n")
        [.str (indent 4), .int fpregs.cw, .int fpregs.sw, .int fpregs.tag, .int fpregs.ipoff,
         .str (indent 4), .int fpregs.cssel, .int fpregs.dataoff, .int fpregs.datasel,
         .int fpregs.status]
  | .x86_64 m =>
    match m.fpregs with
    | none => none
    | some fpregs =>
      asprintf 64
        ("%s cwd %02hdx  swd %02hdx  ftw %02hdx  fop %02hdx\n" ++
         "%s rip %08lx  rdp %08lx  mxcsr %04dx  mxcr_mask %04dx\n")
        [.str (indent 4), .int fpregs.cwd, .int fpregs.swd, .int fpregs.ftw, .int fpregs.fop,
         .str (indent 4), .int fpregs.rip, .int fpregs.rdp, .int fpregs.mxcsr,
         .int fpregs.mxcr_mask]

/-- `_Unwind_Reason_Code`, the two values the callback returns. -/
inductive Unwind_Reason_Code where
  | URC_NO_REASON
  | URC_END_OF_STACK
  deriving DecidableEq, Repr

/-- Actions of the handler that are visible outside it, in program order: system calls
and stores to the process-wide `err_context`. -/
inductive Event where
  | sys_signal (signo : Int)
  | sys_alarm (seconds : Nat)
  | store_si
  | store_sc
  | store_frame (index : Nat) (pc : Nat)
  | store_size (size : Nat)
  | sys_write (fd : Int) (data : Nat)
  deriving DecidableEq, Repr

/-- Outcome of one call of `unwind_callback`: the context after the call, the stores it
made (`Event.store_frame`, `Event.store_size`) and the code it returned. -/
structure CallbackStep where
  ctx : err_context_t
  stores : List Event
  code : Unwind_Reason_Code

/-- `unwind_callback(context, arg)`, with `pc = _Unwind_GetIP(context)` and
`s = arg`: a non-zero `pc` is stored at `frames[size]` and `size` is incremented
(`uint32_t`); the callback asks to go on unless `size` equals `STACK_FRAMES_MAX`. -/
def unwind_callback (pc : Nat) (s : err_context_t) : CallbackStep :=
  let s1 : err_context_t :=
    if pc ≠ 0 then
      { s with frames := Function.update s.frames s.size pc, size := (s.size + 1) % 2 ^ 32 }
    else s
  let stores : List Event :=
    if pc ≠ 0 then [.store_frame s.size pc, .store_size ((s.size + 1) % 2 ^ 32)] else []
  { ctx := s1,
    stores := stores,
    code := if s1.size ≠ STACK_FRAMES_MAX then .URC_NO_REASON else .URC_END_OF_STACK }

/-- `_Unwind_Backtrace(unwind_callback, s)` of the platform unwinder: `pcs` are the
instruction pointers of the frames it finds, innermost first; it calls the callback
on each and stops when the stack ends or the callback returns anything but
`URC_NO_REASON`.  Returns the final context and all stores made, in order. -/
def Unwind_Backtrace : List Nat → err_context_t → err_context_t × List Event
  | [], s => (s, [])
  | pc :: rest, s =>
    let step := unwind_callback pc s
    if step.code = .URC_NO_REASON then
      ((Unwind_Backtrace rest step.ctx).1, step.stores ++ (Unwind_Backtrace rest step.ctx).2)
    else (step.ctx, step.stores)

/-- The state of a `std::ostringstream` that the report code uses: the text written so
far, the field width of the next formatted output and the fill character. -/
structure ostringstream where
  buf : String
  width : Nat
  fill : Char
  deriving DecidableEq, Repr

/-- A fresh stream: empty, width 0, fill `' '`. -/
def ostringstream.new : ostringstream := ⟨"", 0, ' '⟩

/-- `oss << std::setw(n)`. -/
def ostringstream.setw (oss : ostringstream) (n : Nat) : ostringstream :=
  { oss with width := n }

/-- `oss << std::setfill(c)`. -/
def ostringstream.setfill (oss : ostringstream) (c : Char) : ostringstream :=
  { oss with fill := c }

/-- Formatted output of a text (`oss << "..."`, `oss << std::string`): right-justified in
the current width with the current fill; the width is reset to 0. -/
def ostringstream.put_str (oss : ostringstream) (text : String) : ostringstream :=
  { oss with buf := oss.buf ++ String.mk (padLeft oss.fill oss.width text.data), width := 0 }

/-- `oss << index` for a non-negative `int`: decimal. -/
def ostringstream.put_int (oss : ostringstream) (n : Nat) : ostringstream :=
  oss.put_str (String.mk (decDigits n))

/-- `oss << addr` for a `void *`: `0x` and the hexadecimal digits (`%p`). -/
def ostringstream.put_ptr (oss : ostringstream) (p : Nat) : ostringstream :=
  oss.put_str (String.mk ('0' :: 'x' :: hexDigits p))

/-- `oss << std::endl`. -/
def ostringstream.endl (oss : ostringstream) : ostringstream :=
  { oss with buf := oss.buf ++ "\n" }

/-- `oss.str()`. -/
def ostringstream.str (oss : ostringstream) : String := oss.buf

/-- `android::base::StringPrintf` (with `PRIx64` = `llx`, `PRId64` = `lld`). -/
def StringPrintf (fmt : String) (args : List VArg) : Option String :=
  asprintf 64 fmt args

/-- Body of the `for` loop of `dump_stacktrace` for one `index`.  `ptrBits` is the
width of `uintptr_t`. -/
def dump_frame (env : Loader) (ptrBits : Nat) (err_context : err_context_t) (index : Nat)
    (oss : ostringstream) : Option ostringstream :=
  let pc := err_context.frames index
  match env.dladdr pc with
  | none => some oss
  | some stack_info =>
    if stack_info.dli_fname ≠ none then do
      let oss := ((((oss.setw 5).put_str "#").setw 2).setfill '0').put_int index
      let oss := (((oss.put_str (indent 2)).put_str "pc").put_str (indent 2)).put_ptr pc
      let oss ←
        if stack_info.dli_fbase = 0 then
          some (oss.put_str "  <unknown>")
        else
          match stack_info.dli_fname with
          | some so_name => some ((oss.put_str "  ").put_str so_name)
          | none =>
            (StringPrintf "  <anonymous:%llx>" [.int stack_info.dli_fbase]).map oss.put_str
      let oss ←
        match stack_info.dli_sname with
        | some dli_sname =>
          let oss :=
            match env.cxa_demangle dli_sname with
            | none => (oss.put_str " (").put_str dli_sname
            | some demangled_name => (oss.put_str " (").put_str demangled_name
          let oss ←
            if stack_info.dli_saddr ≠ 0 then
              let offset := wrapUnsigned ptrBits ((pc : Int) - (stack_info.dli_saddr : Int))
              (StringPrintf "+%lld" [.int offset]).map oss.put_str
            else some oss
          some (oss.put_str ")")
        | none => some oss
      some (((oss.setw 0).setfill ' ').endl)
    else some oss

/-- `dump_stacktrace(err_context)`: the header line of `get_error_string`, the register
dump, the line `backtrace: ` and the frame loop over `index = 0 .. size - 1`.  `none`
when a null pointer is dereferenced or a formatter call is undefined. -/
def dump_stacktrace (env : Loader) (err_context : err_context_t) : Option String := do
  let sc ← err_context.sc.deref
  let si ← err_context.si.deref
  let addr := get_fault_address sc
  let emsg ← get_error_string sc.wordBits si.si_signo si.si_code addr
  let oss := (ostringstream.new.put_str emsg).endl
  let regs ← get_register_snapshot sc
  let oss := (oss.put_str regs).endl
  let oss := (oss.put_str "backtrace: ").endl
  let oss ← (List.range err_context.size).foldlM
    (fun oss index => dump_frame env sc.wordBits err_context index oss) oss
  some oss.str

/-! ## `main.cpp` -/

/-- The process state the handler works on: the static `err_context` and `notifier`,
the signals whose disposition is the handler (`handled`; every other signal has the
default disposition), and the log of the actions performed so far. -/
structure World where
  err_context : err_context_t
  notifier : Int
  handled : List Int
  trace : List Event

/-- The static `err_context` before any fault: zero-initialised. -/
def err_context_init : err_context_t :=
  { si := .null, sc := .null, size := 0, frames := fun _ => 0 }

/-- `signal(signo, SIG_DFL)`. -/
def sys_signal_dfl (signo : Int) (w : World) : World :=
  { w with handled := w.handled.filter (fun s => s ≠ signo),
           trace := w.trace ++ [Event.sys_signal signo] }

/-- `signal_callback(signo, si, sc)`; `pcs` is the frame sequence the platform unwinder
finds during the call.  `si` and `sc` are the objects the kernel's pointers designate;
the handler stores the two pointers, not copies.  The result is the process when the
body of the handler has run, before the handler returns (see `handler_return`). -/
def signal_callback (pcs : List Nat) (signo : Int) (si : siginfo_t) (sc : ucontext_t)
    (w : World) : World :=
  let w := sys_signal_dfl signo w
  let w := sys_signal_dfl SIGALRM w
  let w := { w with trace := w.trace ++ [Event.sys_alarm 8] }
  let w := { w with err_context := { w.err_context with si := .live si },
                    trace := w.trace ++ [Event.store_si] }
  let w := { w with err_context := { w.err_context with sc := .live sc },
                    trace := w.trace ++ [Event.store_sc] }
  let r := Unwind_Backtrace pcs w.err_context
  let w := { w with err_context := r.1, trace := w.trace ++ r.2 }
  let data := wrapUnsigned 64 signo
  if w.notifier ≥ 0 then { w with trace := w.trace ++ [Event.sys_write w.notifier data] }
  else w

/-- Delivery of a signal by the kernel: the handler runs when the signal's disposition
is the handler; otherwise the default action applies and the handler does not run. -/
def deliver (pcs : List Nat) (si : siginfo_t) (sc : ucontext_t) (w : World) : Option World :=
  if si.si_signo ∈ w.handled then some (signal_callback pcs si.si_signo si sc w) else none

/-- Return from the handler: the signal frame of the invocation is gone, so the two
pointers `err_context` keeps into it dangle; everything else is as the handler left
it. -/
def handler_return (w : World) : World :=
  { w with err_context := { w.err_context with si := w.err_context.si.expire,
                                               sc := w.err_context.sc.expire } }

/-- The handler's work proper: stores to the snapshot and the channel write, as opposed
to the self-protection calls `signal` and `alarm`. -/
def Event.isCaptureStep : Event → Bool
  | .sys_signal _ => false
  | .sys_alarm _ => false
  | _ => true

/-- The process right after `init_native_crash`: an untouched `err_context`, an open
channel and the handler bound to the eight intercepted signals. -/
def world_after_init : World :=
  { err_context := err_context_init,
    notifier := 3,
    handled := [SIGHUP, SIGINT, SIGQUIT, SIGILL, SIGTRAP, SIGABRT, SIGBUS, SIGSEGV],
    trace := [] }

/-- A machine context of x86_64 with all registers zero and no floating-point state. -/
def ucontext_sample : ucontext_t := .x86_64 ⟨fun _ => 0, none⟩

/-- The parenthesised symbol part of a frame line: nothing without a symbol name, else
the demangled (or, failing that, raw) name and, when the symbol's start address is
known, `+` and the offset of `pc` from it. -/
def symbol_text (env : Loader) (ptrBits : Nat) (pc : Nat) (info : Dl_info) : String :=
  match info.dli_sname with
  | none => ""
  | some sym =>
    " (" ++ (env.cxa_demangle sym).getD sym
      ++ (if info.dli_saddr ≠ 0 then
            "+" ++ String.mk (decInt (wrapSigned 64
              (wrapUnsigned ptrBits ((pc : Int) - (info.dli_saddr : Int)))))
          else "")
      ++ ")"

/-- The line the report holds for the frame `index` with address `pc`, read off the
report format `#<index> pc <address> <module> (<symbol>+<offset>)`; empty when the
loader lookup fails or gives no module path. -/
def frame_line (env : Loader) (ptrBits : Nat) (pc : Nat) (index : Nat) : String :=
  match env.dladdr pc with
  | none => ""
  | some info =>
    match info.dli_fname with
    | none => ""
    | some so_name =>
      "    #" ++ String.mk (padLeft '0' 2 (decDigits index))
        ++ "  pc  0x" ++ String.mk (hexDigits pc)
        ++ (if info.dli_fbase = 0 then "  <unknown>" else "  " ++ so_name)
        ++ symbol_text env ptrBits pc info
        ++ "\n"

/-- A machine context of aarch64 at a fault: x0..x30 hold 1..31; `sp`, `pc`, `pstate`
and the fault address are as given. -/
def sigcontext_sample : aarch64_sigcontext :=
  { fault_address := 0x1234, regs := fun i => i + 1, sp := 0x7ffd1000, pc := 0x2010,
    pstate := 0x10 }

/-- A loader that maps `0x2010` into `libfoo.so` (symbol `_Z3foov` at `0x2004`) and
knows no other address; `_Z3foov` demangles to `foo()`. -/
def loader_sample : Loader :=
  { dladdr := fun pc =>
      if pc = 0x2010 then some ⟨some "libfoo.so", 0x2000, some "_Z3foov", 0x2004⟩ else none,
    cxa_demangle := fun name => if name = "_Z3foov" then some "foo()" else none }

/-- A snapshot of a SIGSEGV with two frames: `0x1000`, which no module maps, then
`0x2010`. -/
def snapshot_sample : err_context_t :=
  { si := .live ⟨SIGSEGV, SEGV_MAPERR⟩,
    sc := .live (.aarch64 sigcontext_sample),
    size := 2,
    frames := fun index => if index = 0 then 0x1000 else if index = 1 then 0x2010 else 0 }

/-- The process when the body of the handler has run for a SIGSEGV raised right after
initialisation, on a stack of two frames; the handler has not returned yet. -/
def world_after_fault : World :=
  signal_callback [0x1000, 0x2010] SIGSEGV ⟨SIGSEGV, SEGV_MAPERR⟩
    (.aarch64 sigcontext_sample) world_after_init

/-- The process when the handler has run for SIGHUP, has returned, and its body has run
again for SIGINT (both sent by `kill`), right after initialisation. -/
def world_after_two_faults : World :=
  signal_callback [0x1000, 0x2010] SIGINT ⟨SIGINT, SI_USER⟩ (.aarch64 sigcontext_sample)
    (handler_return
      (signal_callback [0x1000, 0x2010] SIGHUP ⟨SIGHUP, SI_USER⟩
        (.aarch64 sigcontext_sample) world_after_init))

/-- Header line of the report of `snapshot_sample`. -/
def header_sample : String :=
  "signal: 11 (SIGSEGV), code: 1 (SEGV_MAPERR), fault addr: 0x1234 (Address not mapped to object)"

/-- Register dump of `sigcontext_sample`. -/
def regs_sample : String :=
  "     x0 0000000000000001  x1 0000000000000002  x2 0000000000000003  x3 0000000000000004\n" ++
  "     x4 0000000000000005  x5 0000000000000006  x6 0000000000000007  x7 0000000000000008\n" ++
  "     x8 0000000000000009  x9 000000000000000a  x10 000000000000000b  x11 000000000000000c\n" ++
  "     x12 000000000000000d  x13 000000000000000e  x14 000000000000000f  x15 0000000000000010\n" ++
  "     x16 0000000000000011  x17 0000000000000012  x18 0000000000000013  x19 0000000000000014\n" ++
  "     x20 0000000000000015  x21 0000000000000016  x22 0000000000000017  x23 0000000000000018\n" ++
  "     x24 0000000000000019  x25 000000000000001a  x26 000000000000001b  x27 000000000000001c\n" ++
  "     x28 000000000000001d  x29 000000000000001e  x30 000000000000001f\n" ++
  "     sp 000000007ffd1000  pc 0000000000002010  pstate 0000000000000010\n"

/-- The report of `snapshot_sample` under `loader_sample`. -/
def report_sample : String :=
  header_sample ++ "\n" ++ regs_sample ++ "\n" ++ "backtrace: " ++ "\n" ++
  "    #01  pc  0x2010  libfoo.so (foo()+12)\n"

/-- The report of the snapshot of `world_after_two_faults` under `loader_sample`: the
header is that of SIGINT, the second signal, and the frames of both invocations follow
(`size` is not reset). -/
def report_two_faults_sample : String :=
  "signal: 2 (SIGINT), fault addr: 0x1234 (Terminal interrupt signal)" ++ "\n" ++
  regs_sample ++ "\n" ++ "backtrace: " ++ "\n" ++
  "    #01  pc  0x2010  libfoo.so (foo()+12)\n" ++
  "    #03  pc  0x2010  libfoo.so (foo()+12)\n"

/-- A machine context of x86_64 at a fault: RIP = `0x401000`, RSP = `0x7ffd1000`,
RAX = `0x2a`, and a floating-point state with the usual control words. -/
def x86_64_sample : x86_64_mcontext :=
  { gregs := fun i =>
      if i = REG_RIP then 0x401000 else if i = REG_RSP then 0x7ffd1000
      else if i = 13 then 0x2a else 0,
    fpregs := some { cwd := 0x37f, swd := 0, ftw := 0, fop := 0, rip := 0, rdp := 0,
                     mxcsr := 0x1f80, mxcr_mask := 0xffff } }

/-- What `get_register_snapshot` returns for `x86_64_sample`. -/
def x86_64_dump_sample : String :=
  "     cwd 895x  swd 00x  ftw 00x  fop 00x\n" ++
  "     rip 00000000  rdp 00000000  mxcsr 8064x  mxcr_mask 65535x\n"

/-- What `get_error_string` returns for SIGSEGV / SEGV_MAPERR at `0x7fdeadbeef`. -/
def truncated_description_sample : String :=
  "signal: 11 (SIGSEGV), code: 1 (SEGV_MAPERR), fault addr: 0xdeadbeef (Address not mapped to object)"

/-- An entry of the description table: a signal, one of its sub-codes and the human
description `get_error_string` gives for the pair. -/
structure TableEntry where
  signal : Int
  code : Int
  text : String
  deriving DecidableEq, Repr

/-- The (signal, sub-code) pairs that have an entry of their own in `get_error_string`
(a `case` of the inner `switch` of a signal), each with its human description. -/
def description_table : List TableEntry :=
  [⟨SIGILL, ILL_ILLOPC, "Illegal opcode"⟩,
   ⟨SIGILL, ILL_ILLOPN, "Illegal operand"⟩,
   ⟨SIGILL, ILL_ILLADR, "Illegal addressing mode"⟩,
   ⟨SIGILL, ILL_ILLTRP, "Illegal trap"⟩,
   ⟨SIGILL, ILL_PRVOPC, "Privileged opcode"⟩,
   ⟨SIGILL, ILL_PRVREG, "Privileged register"⟩,
   ⟨SIGILL, ILL_COPROC, "Coprocessor error"⟩,
   ⟨SIGILL, ILL_BADSTK, "Internal stack error"⟩,
   ⟨SIGFPE, FPE_INTDIV, "Integer divide by zero"⟩,
   ⟨SIGFPE, FPE_INTOVF, "Integer overflow"⟩,
   ⟨SIGFPE, FPE_FLTDIV, "Floating-point divide by zero"⟩,
   ⟨SIGFPE, FPE_FLTOVF, "Floating-point overflow"⟩,
   ⟨SIGFPE, FPE_FLTUND, "Floating-point underflow"⟩,
   ⟨SIGFPE, FPE_FLTRES, "Floating-point inexact result"⟩,
   ⟨SIGFPE, FPE_FLTINV, "Invalid floating-point operation"⟩,
   ⟨SIGFPE, FPE_FLTSUB, "Subscript out of range"⟩,
   ⟨SIGSEGV, SEGV_MAPERR, "Address not mapped to object"⟩,
   ⟨SIGSEGV, SEGV_ACCERR, "Invalid permissions for mapped object"⟩,
   ⟨SIGBUS, BUS_ADRALN, "Invalid address alignment"⟩,
   ⟨SIGBUS, BUS_ADRERR, "Nonexistent physical address"⟩,
   ⟨SIGBUS, BUS_OBJERR, "Object-specific hardware error"⟩,
   ⟨SIGTRAP, TRAP_BRKPT, "Process breakpoint"⟩,
   ⟨SIGTRAP, TRAP_TRACE, "Process trace trap"⟩,
   ⟨SIGCHLD, CLD_EXITED, "Child has exited"⟩,
   ⟨SIGCHLD, CLD_KILLED, "Child has terminated abnormally and did not create a core file"⟩,
   ⟨SIGCHLD, CLD_DUMPED, "Child has terminated abnormally and created a core file"⟩,
   ⟨SIGCHLD, CLD_TRAPPED, "Traced child has trapped"⟩,
   ⟨SIGCHLD, CLD_STOPPED, "Child has stopped"⟩,
   ⟨SIGCHLD, CLD_CONTINUED, "Stopped child has continued"⟩,
   ⟨SIGPOLL, POLL_IN, "Data input available"⟩,
   ⟨SIGPOLL, POLL_OUT, "Output buffers available"⟩,
   ⟨SIGPOLL, POLL_MSG, "Input message available"⟩,
   ⟨SIGPOLL, POLL_ERR, "I/O error"⟩,
   ⟨SIGPOLL, POLL_PRI, "High priority input available"⟩,
   ⟨SIGPOLL, POLL_HUP, "Device disconnected"⟩]

/-- A register value as the dump writes it: the value modulo `2 ^ bits` in hexadecimal,
zero-padded to `width` digits. -/
def hex_field (width bits value : Nat) : String :=
  String.mk (padLeft '0' width (hexDigits (value % 2 ^ bits)))

/-! ## `main.cpp`: installation of the handlers, initialisation, the consumer thread -/

/-- A signal set `sigset_t`, given by its membership test. -/
abbrev sigset_t := Nat → Bool

/-- `sigemptyset`. -/
def sigemptyset : sigset_t := fun _ => false

/-- `sigfillset`. -/
def sigfillset : sigset_t := fun _ => true

/-- `sigaddset(set, signum)`. -/
def sigaddset (set : sigset_t) (signum : Nat) : sigset_t :=
  fun s => s == signum || set s

/-- Flag `SA_SIGINFO`. -/
def SA_SIGINFO : Nat := 0x00000004

/-- Flag `SA_ONSTACK`. -/
def SA_ONSTACK : Nat := 0x08000000

/-- Flag `SA_RESTART`. -/
def SA_RESTART : Nat := 0x10000000

/-- `struct sigaction`: the handler (a function pointer, held as its address), the mask
in force while the handler runs and the flags. -/
structure sigaction_t where
  sa_sigaction : Nat
  sa_mask : sigset_t
  sa_flags : Nat

/-- `stack_t`. -/
structure stack_t where
  ss_sp : Nat
  ss_flags : Nat
  ss_size : Nat
  deriving DecidableEq, Repr

/-- What the platform answers to the calls of `register_signals` and
`init_native_crash`: the constant `SIGSTKSZ`, the address `calloc` returns (0 for
null), whether `sigaltstack` accepts a stack, whether `sigaction` accepts an action for
a signal number, the descriptor `eventfd` returns (`-1` on failure) and whether
`pthread_create` succeeds.  `pthread_sigmask` is called with `SIG_UNBLOCK` and
`SIG_SETMASK` only, for which it cannot fail. -/
structure Platform where
  SIGSTKSZ : Nat
  calloc : Nat
  sigaltstack_ok : stack_t → Bool
  sigaction_ok : Nat → Bool
  eventfd : Int
  pthread_create_ok : Bool

/-- The signal state of the process and thread that `register_signals` works on: the
disposition of every signal (`none`: default), the signals blocked in the calling
thread, the alternate stack, and for the record the signal numbers passed to
`sigaction` so far and the number of `LOGE` calls. -/
structure SignalState where
  actions : Nat → Option sigaction_t
  thread_mask : sigset_t
  altstack : Option stack_t
  sigaction_calls : List Nat
  logged : Nat

/-- One pass of the loop `for (auto &signum : signals)` of `register_signals`:
`sigaction(signum, &siga, NULL)`; when it is rejected the old thread mask is restored
and the error logged. -/
def register_one (os : Platform) (siga : sigaction_t) (old : sigset_t) (st : SignalState)
    (signum : Nat) : SignalState :=
  if os.sigaction_ok signum then
    { st with actions := Function.update st.actions signum (some siga),
              sigaction_calls := st.sigaction_calls ++ [signum] }
  else
    { st with thread_mask := old,
              logged := st.logged + 1,
              sigaction_calls := st.sigaction_calls ++ [signum] }

/-- `register_signals(signals, handler)`. -/
def register_signals (os : Platform) (signals : List Nat) (handler : Nat)
    (st : SignalState) : SignalState :=
  let stack : stack_t := { ss_sp := os.calloc, ss_flags := 0, ss_size := os.SIGSTKSZ }
  let st : SignalState :=
    if os.sigaltstack_ok stack then { st with altstack := some stack }
    else { st with logged := st.logged + 1 }
  let mask : sigset_t := sigaddset sigemptyset SIGQUIT.toNat
  let old : sigset_t := st.thread_mask
  let st : SignalState := { st with thread_mask := fun s => st.thread_mask s && !mask s }
  let siga : sigaction_t :=
    { sa_sigaction := handler,
      sa_mask := sigfillset,
      sa_flags := SA_SIGINFO ||| SA_ONSTACK ||| SA_RESTART }
  signals.foldl (register_one os siga old) st

/-- Address of the function `signal_callback`. -/
def signal_callback_addr : Nat := 0x5ca11

/-- The signal `signum` is bound to the handler at address `handler`. -/
def SignalState.bound (st : SignalState) (handler : Nat) (signum : Nat) : Bool :=
  match st.actions signum with
  | some siga => siga.sa_sigaction == handler
  | none => false

/-- The process after `init_native_crash`: its signal state, the state the handler
works on, whether the consumer thread runs, and the descriptors passed to `close`. -/
structure Runtime where
  signals : SignalState
  world : World
  consumer_started : Bool
  closed : List Int

/-- `init_native_crash()`: the eight signals are registered with `signal_callback`, the
channel is created, the consumer thread is started; when the thread cannot be created
the channel is closed and `notifier` set to `-1`. -/
def init_native_crash (os : Platform) (st : SignalState) : Runtime :=
  let signals : List Nat :=
    [SIGHUP.toNat, SIGINT.toNat, SIGQUIT.toNat, SIGILL.toNat,
     SIGTRAP.toNat, SIGABRT.toNat, SIGBUS.toNat, SIGSEGV.toNat]
  let st := register_signals os signals signal_callback_addr st
  let notifier : Int := os.eventfd
  let handled : List Int :=
    ((List.range 65).filter (st.bound signal_callback_addr)).map Int.ofNat
  if os.pthread_create_ok then
    { signals := st,
      world := { err_context := err_context_init, notifier := notifier,
                 handled := handled, trace := [] },
      consumer_started := true,
      closed := [] }
  else
    { signals := { st with logged := st.logged + 1 },
      world := { err_context := err_context_init, notifier := -1,
                 handled := handled, trace := [] },
      consumer_started := false,
      closed := [notifier] }

/-- A fault as the handler sees it: the frame sequence the unwinder finds, the signal
number, the signal info and the machine context. -/
structure Fault where
  pcs : List Nat
  signo : Int
  si : siginfo_t
  sc : ucontext_t

/-- The handler invoked for a sequence of faults, one after the other; the result is the
process when the body of the last invocation has run.  (Every invocation overwrites
both pointers of `err_context`, so the return of the invocation before it leaves no
mark on this state.) -/
def handle_faults (faults : List Fault) (w : World) : World :=
  faults.foldl (fun w f => signal_callback f.pcs f.signo f.si f.sc w) w

/-- Value of the counter of the event descriptor `fd` after the writes of a log: the
sum of the values written to it. -/
def eventfd_counter (fd : Int) : List Event → Nat
  | [] => 0
  | .sys_write fd1 data :: rest =>
    (if fd1 = fd then data else 0) + eventfd_counter fd rest
  | _ :: rest => eventfd_counter fd rest

/-- What `read(notifier, &data, sizeof data)` does on an event descriptor. -/
inductive ReadOutcome where
  | value (data : Nat)
  | failed
  | blocked
  deriving DecidableEq, Repr

/-- `read` on the event descriptor `fd` whose counter is `counter`: it fails on an
invalid descriptor, blocks while the counter is zero and else returns the counter. -/
def sys_read_eventfd (fd : Int) (counter : Nat) : ReadOutcome :=
  if fd < 0 then .failed else if counter = 0 then .blocked else .value counter

/-- How a run of the thread function `crash_callback` ends: `exit(EXIT_FAILURE)`, blocked
for ever in `read`, undefined behaviour, or return after the listed invocations of the
Java callback (signal number and message). -/
inductive ConsumerOutcome where
  | exit_failure
  | blocked
  | undefined
  | returned (calls : List (Int × String))
  deriving DecidableEq, Repr

/-- `crash_callback(args)`: attach to the JVM (`attach_ok`), `read` the channel
(`read_result`; `data` is not initialised, so after a failed `read` it holds `garbage`),
format `err_context` as it is when `dump_stacktrace` runs, and invoke the Java callback
with
`static_cast<jint>(data)` and the message; then detach and return.  The lookup of the
Java method is taken to succeed. -/
def crash_callback (attach_ok : Bool) (env : Loader) (read_result : ReadOutcome)
    (garbage : Nat) (err_context : err_context_t) : ConsumerOutcome :=
  if attach_ok = false then .exit_failure
  else
    match read_result with
    | .blocked => .blocked
    | .value data =>
      match dump_stacktrace env err_context with
      | none => .undefined
      | some message => .returned [(wrapSigned 32 data, message)]
    | .failed =>
      match dump_stacktrace env err_context with
      | none => .undefined
      | some message => .returned [(wrapSigned 32 garbage, message)]

/-- The invocations of the Java callback a run of the thread function has made. -/
def ConsumerOutcome.calls : ConsumerOutcome → List (Int × String)
  | .returned calls => calls
  | _ => []

/-- The consumer thread over its whole life: `pthread_create` runs `crash_callback`
once, and the thread ends when it returns.  `at_read` is the process when the thread's
one `read` is served: the value read is the counter of the event descriptor then, the
sum of the values the handler has written so far (nothing else reads the descriptor).
`at_dump` is the process when `dump_stacktrace` then dereferences `err_context`. -/
def consumer_thread (attach_ok : Bool) (env : Loader) (garbage : Nat)
    (at_read at_dump : World) : ConsumerOutcome :=
  crash_callback attach_ok env
    (sys_read_eventfd at_read.notifier (eventfd_counter at_read.notifier at_read.trace))
    garbage at_dump.err_context

/-- The invocations of the Java callback in a process set up by `init_native_crash`:
those of the consumer thread when it was started, none otherwise (nothing else calls
the callback). -/
def Runtime.callback_calls (r : Runtime) (attach_ok : Bool) (env : Loader) (garbage : Nat)
    (at_read at_dump : World) : List (Int × String) :=
  if r.consumer_started then (consumer_thread attach_ok env garbage at_read at_dump).calls
  else []

/-- The signal numbers that are a `case` of the outer `switch` of `get_error_string`. -/
def outer_keys : List Int :=
  [SIGILL, SIGFPE, SIGSEGV, SIGBUS, SIGTRAP, SIGCHLD, SIGPOLL, SIGABRT, SIGALRM, SIGCONT,
   SIGHUP, SIGINT, SIGKILL, SIGPIPE, SIGQUIT, SIGSTOP, SIGTERM, SIGTSTP, SIGTTIN, SIGTTOU,
   SIGUSR1, SIGUSR2, SIGPROF, SIGSYS, SIGVTALRM, SIGURG, SIGXCPU, SIGXFSZ]

/-- The sub-codes that are a `case` of the inner `switch` of the `default` branch. -/
def fallback_codes : List Int :=
  [SI_USER, SI_QUEUE, SI_TIMER, SI_ASYNCIO, SI_MESGQ]

/-- A platform that accepts every call; `eventfd` returns the descriptor 3. -/
def platform_sample : Platform :=
  { SIGSTKSZ := 8192, calloc := 0x7000, sigaltstack_ok := fun _ => true,
    sigaction_ok := fun _ => true, eventfd := 3, pthread_create_ok := true }

/-- A platform on which `pthread_create` fails and `sigaction` rejects SIGQUIT. -/
def platform_failing : Platform :=
  { SIGSTKSZ := 8192, calloc := 0x7000, sigaltstack_ok := fun _ => false,
    sigaction_ok := fun signum => signum != 3, eventfd := 3, pthread_create_ok := false }

/-- The signal state of a fresh process: every disposition default, nothing blocked but
SIGQUIT, no alternate stack. -/
def signals_fresh : SignalState :=
  { actions := fun _ => none, thread_mask := fun s => s == 3, altstack := none,
    sigaction_calls := [], logged := 0 }

/-- A snapshot of a SIGTRAP with the sub-code `TRAP_HWBKPT` (4), which has no entry of
its own in the table. -/
def snapshot_sigtrap : err_context_t :=
  { snapshot_sample with si := .live ⟨SIGTRAP, 4⟩ }

/-- What `get_error_string` returns for SIGSEGV with the sub-code `SI_TKILL` (-6, as
`raise(SIGSEGV)` delivers it) at the fault address `0x1234`. -/
def sigsegv_default_sample : String :=
  "signal: 11 (SIGSEGV), fault addr: 0xfffffffa (SEGV_ACCERR)"

/-- A platform on which `eventfd` fails (it returns `-1`) and everything else
succeeds. -/
def platform_no_eventfd : Platform :=
  { SIGSTKSZ := 8192, calloc := 0x7000, sigaltstack_ok := fun _ => true,
    sigaction_ok := fun _ => true, eventfd := -1, pthread_create_ok := true }

/-- A machine context of aarch64 whose fault address needs more than 32 bits. -/
def aarch64_sample : aarch64_sigcontext :=
  { fault_address := 0x7fdeadbeef, regs := fun _ => 0, sp := 0x7ffd1000, pc := 0x401000,
    pstate := 0 }

/-- What `get_error_string` returns for SIGFPE / FPE_FLTDIV at the address 0. -/
def fltdiv_description_sample : String :=
  "signal: 8 (SIGFPE), code: 3 (FPE_INTDIV), fault addr: 0x0 (Floating-point divide by zero)"

/-! ## `treesitter/src/main/cpp` -/

/-- `TSSymbolType` of `tree_sitter/api.h`: the kinds `ts_language_symbol_type` reports
for a symbol, as `ts_language.cpp` names them. -/
inductive TSSymbolType where
  | TSSymbolTypeRegular
  | TSSymbolTypeAnonymous
  | TSSymbolTypeSupertype
  | TSSymbolTypeAuxiliary
  deriving DecidableEq, Repr

/-- The constants of the Java enum `TSSymbolType` that the field cache knows
(`TSSymbolType_REGULAR`, `TSSymbolType_ANONYMOUS`, `TSSymbolType_AUXILIARY`). -/
inductive JSymbolType where
  | REGULAR
  | ANONYMOUS
  | AUXILIARY
  deriving DecidableEq, Repr

/-- `language_symbol_type`, on the type the library reports for the symbol: the `switch`
with its three cases; the `default` branch is `UNREACHABLE()`, undefined behaviour when
reached (`none`). -/
def language_symbol_type (symbol_type : TSSymbolType) : Option JSymbolType :=
  match symbol_type with
  | .TSSymbolTypeRegular => some .REGULAR
  | .TSSymbolTypeAnonymous => some .ANONYMOUS
  | .TSSymbolTypeAuxiliary => some .AUXILIARY
  | _ => none

/-- `language_is_supertype`, on the type the library reports for the symbol. -/
def language_is_supertype (symbol_type : TSSymbolType) : Bool :=
  symbol_type == .TSSymbolTypeSupertype

/-- The tokens `strtok(s, "\n")`, `strtok(NULL, "\n")`, ... return: the maximal runs of
bytes other than `'\n'`; `cur` is the run being read, in reverse.  Runs of several
newlines yield no empty token. -/
def strtok_lines (cur : List Char) : List Char → List (List Char)
  | [] => if cur = [] then [] else [cur.reverse]
  | c :: cs =>
    if c = '\n' then
      if cur = [] then strtok_lines [] cs else cur.reverse :: strtok_lines [] cs
    else strtok_lines (c :: cur) cs

/-- The loop `while (line != NULL)` of `query_init` over the remaining tokens, from the
current `start` and `row`; returns `start` and `row` at its end (`uint32_t`). -/
def query_error_loop (error_offset : Nat) : List (List Char) → Nat → Nat → Nat × Nat
  | [], start, row => (start, row)
  | line :: rest, start, row =>
    if (start + line.length % 2 ^ 32 + 1) % 2 ^ 32 > error_offset then (start, row)
    else query_error_loop error_offset rest ((start + line.length % 2 ^ 32 + 1) % 2 ^ 32)
      ((row + 1) % 2 ^ 32)

/-- The `(row, column)` that `query_init` computes for the error offset the library
reports in `pattern_chars`. -/
def query_error_position (pattern_chars : List Char) (error_offset : Nat) : Nat × Nat :=
  let r := query_error_loop error_offset (strtok_lines [] pattern_chars) 0 0
  (r.2, (error_offset + 2 ^ 32 - r.1) % 2 ^ 32)

/-- What `query_init` passes to the constructor of `TSQueryError$Syntax`: the computed
row and column when `error_offset < length`, `(-1, -1)` otherwise. -/
def query_syntax_error (pattern_chars : List Char) (error_offset : Nat) : Int × Int :=
  if error_offset < pattern_chars.length then
    ((query_error_position pattern_chars error_offset).1,
     (query_error_position pattern_chars error_offset).2)
  else (-1, -1)

/-- Zero-based number of the line that holds the byte at `offset`: the number of
newlines before it. -/
def line_of_offset (text : List Char) (offset : Nat) : Nat :=
  ((text.take offset).filter (fun c => c = '\n')).length

/-- Offset of the byte at `offset` from the start of its line: the number of bytes
after the last newline before it. -/
def column_of_offset (text : List Char) (offset : Nat) : Nat :=
  ((text.take offset).reverse.takeWhile (fun c => c ≠ '\n')).length

/-- `sprintf(buffer, fmt, args...)` into a buffer of `size` bytes: the text and its
terminating NUL are written; writing past the buffer is undefined (`none`). -/
def sprintf (size : Nat) (fmt : String) (args : List VArg) : Option String :=
  match asprintf 64 fmt args with
  | none => none
  | some text => if text.data.length + 1 ≤ size then some text else none

/-- The message `node_child`, `node_named_child`, `node_field_name_for_child` and
`node_field_name_for_named_child` format for an index out of bounds (`index` is the
`jint` argument, cast to `uint32_t`), in `char buffer[40]`. -/
def child_index_message (index : Int) : Option String :=
  sprintf 40 "Child index %u is out of bounds" [.int (wrapUnsigned 32 index)]

/-- The message `query_disable_pattern` ... `query_is_pattern_non_local` format for an
index out of bounds, in `char buffer[45]`. -/
def pattern_index_message (index : Int) : Option String :=
  sprintf 45 "Pattern index %u is out of bounds" [.int (wrapUnsigned 32 index)]


theorem STACK_FRAMES_MAX_eq : STACK_FRAMES_MAX = 32 := rfl

theorem unwind_callback_zero (s : err_context_t) :
    unwind_callback 0 s =
      { ctx := s, stores := [],
        code := if s.size ≠ STACK_FRAMES_MAX then .URC_NO_REASON else .URC_END_OF_STACK } := by
  simp [unwind_callback]

theorem unwind_callback_nonzero (pc : Nat) (s : err_context_t) (hpc : pc ≠ 0) :
    unwind_callback pc s =
      { ctx := { s with frames := Function.update s.frames s.size pc,
                        size := (s.size + 1) % 2 ^ 32 },
        stores := [.store_frame s.size pc, .store_size ((s.size + 1) % 2 ^ 32)],
        code := if (s.size + 1) % 2 ^ 32 ≠ STACK_FRAMES_MAX then .URC_NO_REASON
                else .URC_END_OF_STACK } := by
  simp [unwind_callback, hpc]

/-- What a run of the unwinder does to a context that is not yet full. -/
theorem Unwind_Backtrace_spec (pcs : List Nat) :
    ∀ s : err_context_t, s.size < STACK_FRAMES_MAX →
      (Unwind_Backtrace pcs s).1.size
          = min (s.size + (pcs.filter (fun pc => pc ≠ 0)).length) STACK_FRAMES_MAX ∧
      (∀ i, i < s.size → (Unwind_Backtrace pcs s).1.frames i = s.frames i) ∧
      (∀ i, s.size + i < (Unwind_Backtrace pcs s).1.size →
          (pcs.filter (fun pc => pc ≠ 0))[i]?
            = some ((Unwind_Backtrace pcs s).1.frames (s.size + i))) ∧
      (∀ idx pc, Event.store_frame idx pc ∈ (Unwind_Backtrace pcs s).2 →
          s.size ≤ idx ∧ idx < STACK_FRAMES_MAX) ∧
      (∀ n, Event.store_size n ∈ (Unwind_Backtrace pcs s).2 → n ≤ STACK_FRAMES_MAX) ∧
      (Unwind_Backtrace pcs s).1.si = s.si ∧ (Unwind_Backtrace pcs s).1.sc = s.sc := by
  induction pcs with
  | nil =>
    intro s h
    simp only [STACK_FRAMES_MAX_eq] at h ⊢
    simp [Unwind_Backtrace]
    omega
  | cons pc rest ih =>
    intro s h
    by_cases hpc : pc = 0
    · subst hpc
      have hne : s.size ≠ STACK_FRAMES_MAX := Nat.ne_of_lt h
      simpa [Unwind_Backtrace, unwind_callback_zero, hne] using ih s h
    · have hmod : (s.size + 1) % 2 ^ 32 = s.size + 1 := by
        simp only [STACK_FRAMES_MAX_eq] at h
        omega
      by_cases hfull : s.size + 1 = STACK_FRAMES_MAX
      · simp only [STACK_FRAMES_MAX_eq] at h hfull ⊢
        simp [Unwind_Backtrace, unwind_callback_nonzero pc s hpc, hmod, hfull,
          STACK_FRAMES_MAX_eq, List.filter_cons, hpc]
        refine ⟨?_, ?_, ?_, ?_⟩
        · omega
        · intro i hi
          rw [Function.update_noteq (by omega)]
        · intro i hi
          have : i = 0 := by omega
          subst this
          simp
        · omega
      · have hlt : s.size + 1 < STACK_FRAMES_MAX := by
          simp only [STACK_FRAMES_MAX_eq] at h hfull ⊢
          omega
        obtain ⟨ih1, ih2, ih3, ih4, ih5, ih6, ih7⟩ :=
          ih { s with frames := Function.update s.frames s.size pc, size := s.size + 1 } hlt
        simp only [Unwind_Backtrace, unwind_callback_nonzero pc s hpc, hmod, hfull,
          ne_eq, not_false_eq_true, if_true, List.filter_cons, hpc, decide_True,
          List.length_cons] at ih1 ih2 ih3 ih4 ih5 ih6 ih7 ⊢
        refine ⟨?_, ?_, ?_, ?_, ?_, ih6, ih7⟩
        · rw [ih1]; congr 1; omega
        · intro i hi
          rw [ih2 i (by omega), Function.update_noteq (by omega)]
        · intro i hi
          cases i with
          | zero =>
            simp only [List.getElem?_cons_zero, Nat.add_zero]
            rw [ih2 s.size (by omega), Function.update_same]
          | succ j =>
            simp only [List.getElem?_cons_succ]
            have := ih3 j (by omega)
            rw [this]
            congr 2
            omega
        · intro idx pc1 hmem
          simp only [List.cons_append, List.nil_append, List.mem_cons] at hmem
          rcases hmem with hmem | hmem | hmem
          · injection hmem with h1 h2
            subst h1
            simp only [STACK_FRAMES_MAX_eq] at h ⊢
            omega
          · cases hmem
          · have := ih4 idx pc1 hmem
            omega
        · intro n hmem
          simp only [List.cons_append, List.nil_append, List.mem_cons] at hmem
          rcases hmem with hmem | hmem | hmem
          · cases hmem
          · injection hmem with h1
            subst h1
            exact Nat.le_of_lt hlt
          · exact ih5 n hmem

/-- C2: for every frame sequence the unwinder delivers, a run of `unwind_callback`
that starts from a snapshot with `size = 0` and stops when the callback returns
end-of-stack stores to `frames` only at indices below 32 and ends with `size ≤ 32`. -/
theorem unwind_never_exceeds_capacity (pcs : List Nat) (si : Ptr siginfo_t)
    (sc : Ptr ucontext_t) (frames : Nat → Nat) :
    (∀ idx pc, Event.store_frame idx pc ∈ (Unwind_Backtrace pcs ⟨si, sc, 0, frames⟩).2 →
        idx < 32) ∧
    (Unwind_Backtrace pcs ⟨si, sc, 0, frames⟩).1.size ≤ 32 := by
  obtain ⟨h1, -, -, h4, -, -, -⟩ :=
    Unwind_Backtrace_spec pcs ⟨si, sc, 0, frames⟩ (by simp [STACK_FRAMES_MAX_eq])
  refine ⟨fun idx pc hmem => ?_, ?_⟩
  · have := (h4 idx pc hmem).2
    simpa [STACK_FRAMES_MAX_eq] using this
  · rw [h1]
    simp only [STACK_FRAMES_MAX_eq]
    omega

/-- C3: for a call stack of depth `D = pcs.length` whose return addresses are all
non-zero, unwinding into an empty snapshot ends with `size = D` when `D < 32` and
with `size = 32` when `D ≥ 32`. -/
theorem unwind_frame_count (pcs : List Nat) (si : Ptr siginfo_t)
    (sc : Ptr ucontext_t) (frames : Nat → Nat) (hnz : ∀ pc ∈ pcs, pc ≠ 0) :
    (Unwind_Backtrace pcs ⟨si, sc, 0, frames⟩).1.size
      = if pcs.length < 32 then pcs.length else 32 := by
  obtain ⟨h1, -⟩ :=
    Unwind_Backtrace_spec pcs ⟨si, sc, 0, frames⟩ (by simp [STACK_FRAMES_MAX_eq])
  have hfilter : pcs.filter (fun pc => pc ≠ 0) = pcs := by
    rw [List.filter_eq_self]
    intro pc hmem
    simpa using hnz pc hmem
  rw [h1, hfilter]
  simp only [STACK_FRAMES_MAX_eq]
  split <;> omega

/-- Witness of C3: a stack of depth 3 and a stack of depth 40. -/
theorem unwind_frame_count_witness :
    (∀ pc ∈ [0x7100, 0x7200, 0x7300], pc ≠ 0) ∧
    (Unwind_Backtrace [0x7100, 0x7200, 0x7300] ⟨.null, .null, 0, fun _ => 0⟩).1.size = 3 ∧
    (∀ pc ∈ List.replicate 40 0x7100, pc ≠ 0) ∧
    (Unwind_Backtrace (List.replicate 40 0x7100) ⟨.null, .null, 0, fun _ => 0⟩).1.size = 32 :=
  ⟨by decide, unwind_frame_count [0x7100, 0x7200, 0x7300] .null .null (fun _ => 0) (by decide),
   by decide, unwind_frame_count (List.replicate 40 0x7100) .null .null (fun _ => 0) (by decide)⟩

/-- C4: after unwinding into an empty snapshot, for every `i < size` the entry
`frames[i]` is the `i`-th non-zero return address the unwinder delivered (innermost
first), and it is not zero. -/
theorem unwind_frames_innermost_first (pcs : List Nat) (si : Ptr siginfo_t)
    (sc : Ptr ucontext_t) (frames : Nat → Nat) (i : Nat)
    (hi : i < (Unwind_Backtrace pcs ⟨si, sc, 0, frames⟩).1.size) :
    (pcs.filter (fun pc => pc ≠ 0))[i]?
        = some ((Unwind_Backtrace pcs ⟨si, sc, 0, frames⟩).1.frames i) ∧
    (Unwind_Backtrace pcs ⟨si, sc, 0, frames⟩).1.frames i ≠ 0 := by
  obtain ⟨-, -, h3, -⟩ :=
    Unwind_Backtrace_spec pcs ⟨si, sc, 0, frames⟩ (by simp [STACK_FRAMES_MAX_eq])
  have hget := h3 i (by simpa using hi)
  simp only [Nat.zero_add] at hget
  refine ⟨hget, ?_⟩
  have hmem : (Unwind_Backtrace pcs ⟨si, sc, 0, frames⟩).1.frames i
      ∈ pcs.filter (fun pc => pc ≠ 0) := List.getElem?_mem hget
  simpa using (List.mem_filter.mp hmem).2

/-- Witness of C4: the chain A -> B -> C with the fault in C (a zero address in
between is skipped): the frame of C is first, then B, then A. -/
theorem unwind_frames_innermost_first_witness :
    (1 < (Unwind_Backtrace [0xC0, 0, 0xB0, 0xA0] ⟨.null, .null, 0, fun _ => 0⟩).1.size) ∧
    ([0xC0, 0, 0xB0, 0xA0].filter (fun pc => pc ≠ 0))[1]?
        = some ((Unwind_Backtrace [0xC0, 0, 0xB0, 0xA0] ⟨.null, .null, 0, fun _ => 0⟩).1.frames 1) ∧
    (Unwind_Backtrace [0xC0, 0, 0xB0, 0xA0] ⟨.null, .null, 0, fun _ => 0⟩).1.frames 1 ≠ 0 :=
  ⟨by decide,
   unwind_frames_innermost_first [0xC0, 0, 0xB0, 0xA0] .null .null (fun _ => 0) 1 (by decide)⟩

/-- C5 (evaluation at the failing input): the handler never resets `size`.  After a
first invocation (SIGINT) on a stack of 32 frames `size` is 32; a second invocation for
another intercepted signal (SIGHUP, whose disposition is still the handler) stores its
first frame at `frames[32]`, past the array, and leaves `size = 33`. -/
theorem second_invocation_breaks_frame_count :
    ((deliver (List.replicate 32 0x7100) ⟨SIGINT, SI_USER⟩ ucontext_sample world_after_init).bind
        (deliver [0x7200] ⟨SIGHUP, SI_USER⟩ ucontext_sample)).map
      (fun w => (w.err_context.size, decide (Event.store_frame 32 0x7200 ∈ w.trace)))
      = some (33, true) := by
  decide

/-- The defect behind C5 in general: when a run of the unwinder starts on a snapshot
that is already full (`size = STACK_FRAMES_MAX`), the first non-zero address it delivers
is stored at index `STACK_FRAMES_MAX`, one past the last element of `frames`. -/
theorem full_snapshot_store_past_end (pc : Nat) (rest : List Nat) (s : err_context_t)
    (hfull : s.size = STACK_FRAMES_MAX) (hpc : pc ≠ 0) :
    Event.store_frame STACK_FRAMES_MAX pc ∈ (Unwind_Backtrace (pc :: rest) s).2 := by
  have hstores : Event.store_frame STACK_FRAMES_MAX pc ∈ (unwind_callback pc s).stores := by
    simp [unwind_callback_nonzero pc s hpc, hfull]
  by_cases hcode : (unwind_callback pc s).code = .URC_NO_REASON
  · simp only [Unwind_Backtrace, hcode, if_true]
    exact List.mem_append_left _ hstores
  · simp only [Unwind_Backtrace, hcode, if_false]
    exact hstores

/-! ## The handler -/

theorem Unwind_Backtrace_stores (pcs : List Nat) :
    ∀ s : err_context_t, ∀ e ∈ (Unwind_Backtrace pcs s).2, e.isCaptureStep = true := by
  induction pcs with
  | nil => intro s e hmem; simp [Unwind_Backtrace] at hmem
  | cons pc rest ih =>
    intro s e hmem
    have hstores : ∀ e ∈ (unwind_callback pc s).stores, e.isCaptureStep = true := by
      intro e he
      unfold unwind_callback at he
      by_cases hpc : pc = 0
      · simp [hpc] at he
      · simp only [hpc, ne_eq, not_false_eq_true, if_true, List.mem_cons,
          List.mem_singleton, List.not_mem_nil, or_false] at he
        rcases he with he | he <;> subst he <;> rfl
    by_cases hcode : (unwind_callback pc s).code = .URC_NO_REASON
    · simp only [Unwind_Backtrace, hcode, if_true] at hmem
      rcases List.mem_append.mp hmem with h | h
      · exact hstores e h
      · exact ih _ e h
    · simp only [Unwind_Backtrace, hcode, if_false] at hmem
      exact hstores e hmem

/-- C10: in every invocation of the handler the self-protection calls come first: the
actions the invocation adds to the log start with `signal(signo, SIG_DFL)`,
`signal(SIGALRM, SIG_DFL)` and `alarm(8)`; everything after them is a store to the
snapshot (signal info, machine context, frames, size) or the channel write, and the
stores of the signal info and of the machine context are among them.  The triggering
signal is no longer bound to the handler afterwards. -/
theorem signal_callback_protects_first (pcs : List Nat) (signo : Int) (si : siginfo_t)
    (sc : ucontext_t) (w : World) :
    ∃ rest : List Event,
      (signal_callback pcs signo si sc w).trace
        = w.trace ++ [Event.sys_signal signo, Event.sys_signal SIGALRM, Event.sys_alarm 8]
            ++ rest ∧
      (∀ e ∈ rest, e.isCaptureStep = true) ∧
      Event.store_si ∈ rest ∧ Event.store_sc ∈ rest ∧
      signo ∉ (signal_callback pcs signo si sc w).handled := by
  unfold signal_callback sys_signal_dfl
  by_cases hn : w.notifier ≥ 0
  · refine ⟨[Event.store_si, Event.store_sc]
        ++ (Unwind_Backtrace pcs { w.err_context with si := .live si, sc := .live sc }).2
        ++ [Event.sys_write w.notifier (wrapUnsigned 64 signo)], ?_, ?_, ?_, ?_, ?_⟩
    · simp [hn]
    · intro e he
      simp only [List.mem_append, List.mem_cons, List.mem_singleton, List.not_mem_nil,
        or_false] at he
      rcases he with (he | he) | he
      · rcases he with he | he <;> subst he <;> rfl
      · exact Unwind_Backtrace_stores pcs _ e he
      · subst he; rfl
    · simp
    · simp
    · simp [hn, List.mem_filter]
  · refine ⟨[Event.store_si, Event.store_sc]
        ++ (Unwind_Backtrace pcs { w.err_context with si := .live si, sc := .live sc }).2,
        ?_, ?_, ?_, ?_, ?_⟩
    · simp [hn]
    · intro e he
      simp only [List.mem_append, List.mem_cons, List.mem_singleton, List.not_mem_nil,
        or_false] at he
      rcases he with he | he
      · rcases he with he | he <;> subst he <;> rfl
      · exact Unwind_Backtrace_stores pcs _ e he
    · simp
    · simp
    · simp [hn, List.mem_filter]

/-! ## The report -/

theorem padLeft_zero (c : Char) (cs : List Char) : padLeft c 0 cs = cs := by
  simp [padLeft]

theorem StringPrintf_offset (offset : Int) :
    StringPrintf "+%lld" [.int offset]
      = some ("+" ++ String.mk (decInt (wrapSigned 64 offset))) := by
  simp [StringPrintf, asprintf, vformat, render_d, intBits, padLeft_zero, decInt]
  rfl

theorem line_head (ix hx : List Char) (tail : String) :
    String.mk (padLeft ' ' 5 ['#']) ++ (String.mk ix ++ ("  " ++ ("pc" ++ ("  " ++
        (String.mk ('0' :: 'x' :: hx) ++ tail)))))
      = "    #" ++ (String.mk ix ++ ("  pc  0x" ++ (String.mk hx ++ tail))) := by
  apply String.ext
  simp only [String.data_append, List.append_assoc]
  rfl

theorem line_plus (dx : List Char) (tail : String) :
    String.mk ('+' :: dx) ++ tail = "+" ++ (String.mk dx ++ tail) := by
  apply String.ext
  simp only [String.data_append, List.append_assoc]
  rfl

/-- One pass of the frame loop appends the frame's line and leaves the stream's width
and fill as they were at the start of the loop. -/
theorem dump_frame_eq (env : Loader) (ptrBits : Nat) (s : err_context_t) (index : Nat)
    (oss : ostringstream) (hw : oss.width = 0) (hf : oss.fill = ' ') :
    dump_frame env ptrBits s index oss
      = some ⟨oss.buf ++ frame_line env ptrBits (s.frames index) index, 0, ' '⟩ := by
  obtain ⟨buf, width, fill⟩ := oss
  simp only at hw hf
  subst hw hf
  cases hdl : env.dladdr (s.frames index) with
  | none => simp [dump_frame, frame_line, hdl]
  | some info =>
    obtain ⟨fname, fbase, sname, saddr⟩ := info
    cases fname with
    | none => simp [dump_frame, frame_line, hdl]
    | some so_name =>
      cases sname with
      | none =>
        by_cases hb : fbase = 0 <;>
        · simp [dump_frame, frame_line, symbol_text, hdl, hb, ostringstream.setw, ostringstream.setfill,
            ostringstream.put_str, ostringstream.put_int, ostringstream.put_ptr,
            ostringstream.endl, padLeft_zero, indent]
          simp only [String.append_assoc, line_head]
      | some sym =>
        by_cases hb : fbase = 0 <;> by_cases ha : saddr = 0 <;>
          cases hd : env.cxa_demangle sym <;>
        · simp [dump_frame, frame_line, symbol_text, hdl, hb, ha, hd, ostringstream.setw,
            ostringstream.setfill, ostringstream.put_str, ostringstream.put_int,
            ostringstream.put_ptr, ostringstream.endl, padLeft_zero, indent,
            StringPrintf_offset]
          simp only [String.append_assoc, line_head, line_plus]

theorem join_cons (a : String) (l : List String) :
    String.join (a :: l) = a ++ String.join l := by
  apply String.ext
  simp [String.data_append]

theorem join_nil : String.join [] = "" := rfl

/-- The frame loop appends the lines of the frames in index order. -/
theorem dump_loop_eq (env : Loader) (ptrBits : Nat) (s : err_context_t) (indices : List Nat) :
    ∀ oss : ostringstream, oss.width = 0 → oss.fill = ' ' →
      indices.foldlM (fun oss index => dump_frame env ptrBits s index oss) oss
        = some ⟨oss.buf ++ String.join
            (indices.map (fun index => frame_line env ptrBits (s.frames index) index)),
            0, ' '⟩ := by
  induction indices with
  | nil =>
    intro oss hw hf
    obtain ⟨buf, width, fill⟩ := oss
    simp only at hw hf
    subst hw hf
    simp [join_nil]
  | cons index rest ih =>
    intro oss hw hf
    rw [List.foldlM_cons, dump_frame_eq env ptrBits s index oss hw hf]
    simp only [Option.some_bind, Option.bind_eq_bind]
    rw [ih _ rfl rfl]
    simp only [List.map_cons, join_cons, String.append_assoc]

/-- The whole report: header line, register dump, the line `backtrace: ` and the lines
of the frames `0 .. size - 1` in this order. -/
theorem dump_stacktrace_eq (env : Loader) (s : err_context_t) (si : siginfo_t)
    (sc : ucontext_t) (e r : String) (hsi : s.si = .live si) (hsc : s.sc = .live sc)
    (he : get_error_string sc.wordBits si.si_signo si.si_code (get_fault_address sc)
      = some e)
    (hr : get_register_snapshot sc = some r) :
    dump_stacktrace env s
      = some (e ++ "\n" ++ r ++ "\n" ++ "backtrace: " ++ "\n" ++ String.join
          ((List.range s.size).map
            (fun index => frame_line env sc.wordBits (s.frames index) index))) := by
  unfold dump_stacktrace
  simp only [hsi, hsc, he, hr, Ptr.deref, Option.bind_eq_bind, Option.some_bind]
  rw [dump_loop_eq env sc.wordBits s (List.range s.size) _ rfl rfl]
  simp [ostringstream.str, ostringstream.endl, ostringstream.put_str, ostringstream.new,
    padLeft_zero]

theorem sample_header :
    get_error_string 64 SIGSEGV SEGV_MAPERR (get_fault_address (.aarch64 sigcontext_sample))
      = some header_sample := by
  decide

set_option maxRecDepth 100000 in
theorem sample_regs :
    get_register_snapshot (.aarch64 sigcontext_sample) = some regs_sample := by
  decide

theorem frame_lines_getElem (env : Loader) (ptrBits : Nat) (s : err_context_t) (index : Nat)
    (h : index < s.size) :
    ((List.range s.size).map
        (fun index => frame_line env ptrBits (s.frames index) index))[index]?
      = some (frame_line env ptrBits (s.frames index) index) := by
  simp [List.getElem?_map, List.getElem?_range h]

/-- What the frame loop does in general: for every snapshot whose header and register
dump render, `dump_stacktrace` returns a report also when a frame address has no
mapping; such a frame contributes no line at all (it is left out, `<unknown>` is not
shown for it), and every frame, later ones included, whose lookup succeeds with a module
path still has its line, which shows `<unknown>` for the module only when the module
base is null. -/
theorem unmapped_frame_is_left_out (env : Loader) (s : err_context_t) (si : siginfo_t)
    (sc : ucontext_t) (e r : String) (hsi : s.si = .live si) (hsc : s.sc = .live sc)
    (he : get_error_string sc.wordBits si.si_signo si.si_code (get_fault_address sc)
      = some e)
    (hr : get_register_snapshot sc = some r) :
    ∃ lines : List String, lines.length = s.size ∧
      dump_stacktrace env s
        = some (e ++ "\n" ++ r ++ "\n" ++ "backtrace: " ++ "\n" ++ String.join lines) ∧
      (∀ index, index < s.size → env.dladdr (s.frames index) = none →
        lines[index]? = some "") ∧
      (∀ index info so_name, index < s.size →
        env.dladdr (s.frames index) = some info → info.dli_fname = some so_name →
        ∃ tail : String, lines[index]? = some
          ("    #" ++ String.mk (padLeft '0' 2 (decDigits index))
            ++ "  pc  0x" ++ String.mk (hexDigits (s.frames index))
            ++ (if info.dli_fbase = 0 then "  <unknown>" else "  " ++ so_name)
            ++ tail ++ "\n")) := by
  refine ⟨(List.range s.size).map
      (fun index => frame_line env sc.wordBits (s.frames index) index), by simp,
    dump_stacktrace_eq env s si sc e r hsi hsc he hr, ?_, ?_⟩
  · intro index hlt hdl
    rw [frame_lines_getElem env sc.wordBits s index hlt]
    simp [frame_line, hdl]
  · intro index info so_name hlt hdl hname
    rw [frame_lines_getElem env sc.wordBits s index hlt]
    refine ⟨symbol_text env sc.wordBits (s.frames index) info, ?_⟩
    simp only [frame_line, hdl, hname]

set_option maxRecDepth 100000 in
/-- An instance: `snapshot_sample`, whose frame 0 has no mapping: its entry is empty,
and the later frame 1 has its line. -/
theorem unmapped_frame_is_left_out_witness :
    ∃ lines : List String,
      dump_stacktrace loader_sample snapshot_sample
        = some (header_sample ++ "\n" ++ regs_sample ++ "\n" ++ "backtrace: " ++ "\n"
            ++ String.join lines) ∧
      loader_sample.dladdr (snapshot_sample.frames 0) = none ∧
      lines[0]? = some "" ∧
      ∃ tail : String, lines[1]? = some ("    #01  pc  0x2010  libfoo.so" ++ tail ++ "\n") := by
  obtain ⟨lines, -, hdump, hnone, hsome⟩ :=
    unmapped_frame_is_left_out loader_sample snapshot_sample ⟨SIGSEGV, SEGV_MAPERR⟩
      (.aarch64 sigcontext_sample) header_sample regs_sample rfl rfl sample_header sample_regs
  refine ⟨lines, hdump, by decide, hnone 0 (by decide) (by decide), ?_⟩
  obtain ⟨tail, htail⟩ := hsome 1 ⟨some "libfoo.so", 0x2000, some "_Z3foov", 0x2004⟩
    "libfoo.so" (by decide) (by decide) rfl
  refine ⟨tail, ?_⟩
  rw [htail]
  congr 3

set_option maxRecDepth 100000 in
/-- C6 (evaluation at the failing input): in `snapshot_sample` the first frame, `0x1000`,
has no mapping.  A report is returned and the later frame `#01` is rendered, but the
report has no `<unknown>` and no line for the unmapped frame: neither its index `#00`
nor its address occurs.  The branch that writes `<unknown>` sits inside the guard that
skips a frame without mapping. -/
theorem unmapped_frame_shows_no_unknown :
    dump_stacktrace loader_sample snapshot_sample = some report_sample ∧
    loader_sample.dladdr (snapshot_sample.frames 0) = none ∧
    ¬ occursIn "<unknown>" report_sample ∧
    ¬ occursIn "#00" report_sample ∧
    ¬ occursIn "0x1000" report_sample ∧
    occursIn "#01  pc  0x2010  libfoo.so" report_sample := by
  refine ⟨?_, by decide, by decide, by decide, by decide, by decide⟩
  rw [dump_stacktrace_eq loader_sample snapshot_sample ⟨SIGSEGV, SEGV_MAPERR⟩
    (.aarch64 sigcontext_sample) header_sample regs_sample rfl rfl sample_header sample_regs]
  decide

/-- C7: for every snapshot (whose header and register dump render) the frame section is
the concatenation of one entry per captured frame in capture order (`lines[index]` for
`index = 0 .. size - 1`), and for every frame whose module (path and base), symbol name
and symbol start are resolved the entry is the line made of `#` and the capture index,
`pc`, the frame address, the module path and `(symbol+offset)`, in this order. -/
theorem frame_lines_in_capture_order (env : Loader) (s : err_context_t) (si : siginfo_t)
    (sc : ucontext_t) (e r : String) (hsi : s.si = .live si) (hsc : s.sc = .live sc)
    (he : get_error_string sc.wordBits si.si_signo si.si_code (get_fault_address sc)
      = some e)
    (hr : get_register_snapshot sc = some r) :
    ∃ lines : List String, lines.length = s.size ∧
      dump_stacktrace env s
        = some (e ++ "\n" ++ r ++ "\n" ++ "backtrace: " ++ "\n" ++ String.join lines) ∧
      (∀ index info so_name sym, index < s.size →
        env.dladdr (s.frames index) = some info → info.dli_fname = some so_name →
        info.dli_fbase ≠ 0 → info.dli_sname = some sym → info.dli_saddr ≠ 0 →
        lines[index]? = some
          ("    #" ++ String.mk (padLeft '0' 2 (decDigits index))
            ++ "  pc  0x" ++ String.mk (hexDigits (s.frames index))
            ++ "  " ++ so_name
            ++ " (" ++ (env.cxa_demangle sym).getD sym
            ++ "+" ++ String.mk (decInt (wrapSigned 64
                (wrapUnsigned sc.wordBits ((s.frames index : Int) - (info.dli_saddr : Int)))))
            ++ ")" ++ "\n")) := by
  refine ⟨(List.range s.size).map
      (fun index => frame_line env sc.wordBits (s.frames index) index), by simp,
    dump_stacktrace_eq env s si sc e r hsi hsc he hr, ?_⟩
  intro index info so_name sym hlt hdl hname hbase hsym hsaddr
  rw [frame_lines_getElem env sc.wordBits s index hlt]
  simp only [frame_line, symbol_text, hdl, hname, hbase, hsym, hsaddr, ne_eq,
    not_false_eq_true, if_true, if_false, String.append_assoc]

set_option maxRecDepth 100000 in
/-- Witness of C7: `snapshot_sample` under `loader_sample`; its frame 1 is resolved and
its line is the entry 1 of the frame section. -/
theorem frame_lines_in_capture_order_witness :
    ∃ lines : List String,
      dump_stacktrace loader_sample snapshot_sample
        = some (header_sample ++ "\n" ++ regs_sample ++ "\n" ++ "backtrace: " ++ "\n"
            ++ String.join lines) ∧
      lines[1]? = some "    #01  pc  0x2010  libfoo.so (foo()+12)\n" := by
  obtain ⟨lines, -, hdump, hline⟩ :=
    frame_lines_in_capture_order loader_sample snapshot_sample ⟨SIGSEGV, SEGV_MAPERR⟩
      (.aarch64 sigcontext_sample) header_sample regs_sample rfl rfl sample_header sample_regs
  refine ⟨lines, hdump, ?_⟩
  rw [hline 1 ⟨some "libfoo.so", 0x2000, some "_Z3foov", 0x2004⟩ "libfoo.so" "_Z3foov"
    (by decide) (by decide) rfl (by decide) rfl (by decide)]
  decide

/-- C8: for every snapshot (whose header and register dump render) the report starts
with the line `get_error_string(si_signo, si_code, fault address)`, followed by the
register dump, followed by the line `backtrace: `, followed by the entries of the
frames; hence the text of the description table for the captured signal occurs in the
report. -/
theorem report_starts_with_description (env : Loader) (s : err_context_t) (si : siginfo_t)
    (sc : ucontext_t) (e r : String) (hsi : s.si = .live si) (hsc : s.sc = .live sc)
    (he : get_error_string sc.wordBits si.si_signo si.si_code (get_fault_address sc)
      = some e)
    (hr : get_register_snapshot sc = some r) :
    ∃ (report : String) (lines : List String),
      dump_stacktrace env s = some report ∧
      lines.length = s.size ∧
      report = e ++ "\n" ++ r ++ "\n" ++ "backtrace: " ++ "\n" ++ String.join lines ∧
      occursIn e report := by
  refine ⟨_, (List.range s.size).map
      (fun index => frame_line env sc.wordBits (s.frames index) index),
    dump_stacktrace_eq env s si sc e r hsi hsc he hr, by simp, rfl, ?_⟩
  refine ⟨[], ("\n" ++ r ++ "\n" ++ "backtrace: " ++ "\n" ++ String.join
      ((List.range s.size).map
        (fun index => frame_line env sc.wordBits (s.frames index) index))).data, ?_⟩
  simp only [String.data_append, List.nil_append, List.append_assoc]

/-- Witness of C8: `snapshot_sample` under `loader_sample`. -/
theorem report_starts_with_description_witness :
    ∃ (report : String) (lines : List String),
      dump_stacktrace loader_sample snapshot_sample = some report ∧
      lines.length = snapshot_sample.size ∧
      report = header_sample ++ "\n" ++ regs_sample ++ "\n" ++ "backtrace: " ++ "\n"
        ++ String.join lines ∧
      occursIn header_sample report :=
  report_starts_with_description loader_sample snapshot_sample ⟨SIGSEGV, SEGV_MAPERR⟩
    (.aarch64 sigcontext_sample) header_sample regs_sample rfl rfl sample_header sample_regs

/-! ## The register dump -/

set_option maxRecDepth 100000 in
/-- C9 (evaluation at the failing input): on x86_64 the dump is made of fields of the
floating-point state only.  For `x86_64_sample` it names none of the general registers
and shows neither the program counter `0x401000` nor the stack pointer `0x7ffd1000`;
`%02hdx` and `%04dx` write decimal numbers followed by the letter `x`; and whatever the
general registers hold, the dump is the same. -/
theorem x86_64_dump_omits_general_registers :
    get_register_snapshot (.x86_64 x86_64_sample) = some x86_64_dump_sample ∧
    pc_from_ucontext (.x86_64 x86_64_sample) = 0x401000 ∧
    x86_64_sample.gregs REG_RSP = 0x7ffd1000 ∧
    ¬ occursIn "401000" x86_64_dump_sample ∧
    ¬ occursIn "7ffd1000" x86_64_dump_sample ∧
    ¬ occursIn "rax" x86_64_dump_sample ∧
    ¬ occursIn "rsp" x86_64_dump_sample ∧
    (∀ gregs : Fin 23 → Nat,
      get_register_snapshot (.x86_64 ⟨gregs, x86_64_sample.fpregs⟩)
        = get_register_snapshot (.x86_64 x86_64_sample)) := by
  refine ⟨by decide, by decide, by decide, by decide, by decide, by decide, by decide, ?_⟩
  intro gregs
  rfl

/-! ## The description table -/

set_option maxRecDepth 100000 in
/-- C1 (evaluation at the failing input): for SIGSEGV / SEGV_MAPERR at the fault address
`0x7fdeadbeef` the description shows `0xdeadbeef`: `%x` reads 32 bits of the 64-bit
address, and the hexadecimal digits of the address do not occur in the text. -/
theorem description_truncates_fault_address :
    get_error_string 64 SIGSEGV SEGV_MAPERR 0x7fdeadbeef = some truncated_description_sample ∧
    hexDigits 0x7fdeadbeef = "7fdeadbeef".data ∧
    ¬ occursIn "7fdeadbeef" truncated_description_sample := by
  refine ⟨by decide, by decide, by decide⟩

theorem wrapUnsigned_natCast (bits n : Nat) : wrapUnsigned bits (n : Int) = n % 2 ^ bits := by
  unfold wrapUnsigned
  have h : ((n : Int) % (2 : Int) ^ bits) = ((n % 2 ^ bits : Nat) : Int) := by
    push_cast
    rfl
  rw [h, Int.toNat_ofNat]

/-- What `asprintf` makes of `format` with arguments of the kinds `get_error_string`
passes: `%x` writes the low 32 bits of the address argument. -/
theorem asprintf_format (signal code : Int) (addr : Nat) (name cname desc : String) :
    asprintf 64 format [.int signal, .str name, .int code, .str cname, .int addr, .str desc]
      = some ("signal: " ++ String.mk (decInt (wrapSigned 32 signal)) ++ " (" ++ name
          ++ "), code: " ++ String.mk (decInt (wrapSigned 32 code)) ++ " (" ++ cname
          ++ "), fault addr: 0x" ++ String.mk (hexDigits (addr % 2 ^ 32))
          ++ " (" ++ desc ++ ")") := by
  simp [asprintf, format, vformat, render_d, render_x, render_s, intBits, padLeft_zero,
    wrapUnsigned_natCast]
  apply String.ext
  simp [String.data_append, decInt]

/-- Every entry of the table is rendered with `format`, from the signal, the code, the
address and the entry's description (and two names). -/
theorem get_error_string_table (e : TableEntry) (he : e ∈ description_table) (addr : Nat) :
    ∃ name cname : String,
      get_error_string 64 e.signal e.code addr
        = asprintf 64 format
            [.int e.signal, .str name, .int e.code, .str cname, .int addr, .str e.text] := by
  fin_cases he <;> exact ⟨_, _, rfl⟩

/-- What holds of every entry of the table at every fault address: the text is not
empty, it contains the entry's description, and it contains `0x` followed by the
hexadecimal digits of the low 32 bits of the address. -/
theorem table_entry_description (e : TableEntry) (he : e ∈ description_table) (addr : Nat) :
    ∃ text : String, get_error_string 64 e.signal e.code addr = some text ∧
      text ≠ "" ∧ occursIn e.text text ∧
      occursIn ("0x" ++ String.mk (hexDigits (addr % 2 ^ 32))) text := by
  obtain ⟨name, cname, hfmt⟩ := get_error_string_table e he addr
  rw [hfmt, asprintf_format]
  refine ⟨_, rfl, ?_, ?_, ?_⟩
  · intro h
    have hdata := congrArg String.data h
    simp [String.data_append] at hdata
  · refine ⟨("signal: " ++ String.mk (decInt (wrapSigned 32 e.signal)) ++ " (" ++ name
          ++ "), code: " ++ String.mk (decInt (wrapSigned 32 e.code)) ++ " (" ++ cname
          ++ "), fault addr: 0x" ++ String.mk (hexDigits (addr % 2 ^ 32)) ++ " (").data,
        ")".data, ?_⟩
    simp only [String.data_append, List.append_assoc]
  · refine ⟨("signal: " ++ String.mk (decInt (wrapSigned 32 e.signal)) ++ " (" ++ name
          ++ "), code: " ++ String.mk (decInt (wrapSigned 32 e.code)) ++ " (" ++ cname
          ++ "), fault addr: ").data,
        (" (" ++ e.text ++ ")").data, ?_⟩
    generalize hexDigits (addr % 2 ^ 32) = hx
    generalize decInt (wrapSigned 32 e.signal) = d1
    generalize decInt (wrapSigned 32 e.code) = d2
    simp only [String.data_append, List.append_assoc]
    rfl

set_option maxRecDepth 100000 in
/-- On arm the dump names r0..r10, fp, ip, sp, lr, pc and cpsr, each followed by the
value the context holds, in this order. -/
theorem arm_register_dump (m : arm_sigcontext) :
    get_register_snapshot (.arm m)
      = some ("     r0 " ++ hex_field 8 32 m.arm_r0 ++ "  r1 " ++ hex_field 8 32 m.arm_r1
          ++ "  r2 " ++ hex_field 8 32 m.arm_r2 ++ "  r3 " ++ hex_field 8 32 m.arm_r3
          ++ "\n     r4 " ++ hex_field 8 32 m.arm_r4 ++ "  r5 " ++ hex_field 8 32 m.arm_r5
          ++ "  r6 " ++ hex_field 8 32 m.arm_r6 ++ "  r7 " ++ hex_field 8 32 m.arm_r7
          ++ "\n     r8 " ++ hex_field 8 32 m.arm_r8 ++ "  r9 " ++ hex_field 8 32 m.arm_r9
          ++ "  r10 " ++ hex_field 8 32 m.arm_r10 ++ "  fp " ++ hex_field 8 32 m.arm_fp
          ++ "\n     ip " ++ hex_field 8 32 m.arm_ip ++ "  sp " ++ hex_field 8 32 m.arm_sp
          ++ "  lr " ++ hex_field 8 32 m.arm_lr ++ "  pc " ++ hex_field 8 32 m.arm_pc
          ++ "\n     cpsr " ++ hex_field 8 32 m.arm_cpsr ++ "\n") := by
  simp [get_register_snapshot, asprintf, vformat, render_x, render_s, intBits, padLeft_zero,
    wrapUnsigned_natCast, indent, String.data_append]
  apply String.ext
  simp [String.data_append, hex_field]

set_option maxRecDepth 100000 in
set_option maxHeartbeats 1600000 in
/-- On aarch64 the dump names x0..x30, sp, pc and pstate, each followed by the value the
context holds, in this order. -/
theorem aarch64_register_dump (m : aarch64_sigcontext) :
    get_register_snapshot (.aarch64 m)
      = some ("     x0 " ++ hex_field 16 64 (m.regs 0) ++ "  x1 " ++ hex_field 16 64 (m.regs 1)
          ++ "  x2 " ++ hex_field 16 64 (m.regs 2) ++ "  x3 " ++ hex_field 16 64 (m.regs 3)
          ++ "\n     x4 " ++ hex_field 16 64 (m.regs 4) ++ "  x5 " ++ hex_field 16 64 (m.regs 5)
          ++ "  x6 " ++ hex_field 16 64 (m.regs 6) ++ "  x7 " ++ hex_field 16 64 (m.regs 7)
          ++ "\n     x8 " ++ hex_field 16 64 (m.regs 8) ++ "  x9 " ++ hex_field 16 64 (m.regs 9)
          ++ "  x10 " ++ hex_field 16 64 (m.regs 10) ++ "  x11 " ++ hex_field 16 64 (m.regs 11)
          ++ "\n     x12 " ++ hex_field 16 64 (m.regs 12) ++ "  x13 " ++ hex_field 16 64 (m.regs 13)
          ++ "  x14 " ++ hex_field 16 64 (m.regs 14) ++ "  x15 " ++ hex_field 16 64 (m.regs 15)
          ++ "\n     x16 " ++ hex_field 16 64 (m.regs 16) ++ "  x17 " ++ hex_field 16 64 (m.regs 17)
          ++ "  x18 " ++ hex_field 16 64 (m.regs 18) ++ "  x19 " ++ hex_field 16 64 (m.regs 19)
          ++ "\n     x20 " ++ hex_field 16 64 (m.regs 20) ++ "  x21 " ++ hex_field 16 64 (m.regs 21)
          ++ "  x22 " ++ hex_field 16 64 (m.regs 22) ++ "  x23 " ++ hex_field 16 64 (m.regs 23)
          ++ "\n     x24 " ++ hex_field 16 64 (m.regs 24) ++ "  x25 " ++ hex_field 16 64 (m.regs 25)
          ++ "  x26 " ++ hex_field 16 64 (m.regs 26) ++ "  x27 " ++ hex_field 16 64 (m.regs 27)
          ++ "\n     x28 " ++ hex_field 16 64 (m.regs 28) ++ "  x29 " ++ hex_field 16 64 (m.regs 29)
          ++ "  x30 " ++ hex_field 16 64 (m.regs 30) ++ "\n     sp " ++ hex_field 16 64 m.sp ++ "  pc " ++ hex_field 16 64 m.pc
          ++ "  pstate " ++ hex_field 16 64 m.pstate ++ "\n") := by
  simp [get_register_snapshot, asprintf, vformat, render_x, render_s, intBits, padLeft_zero,
    wrapUnsigned_natCast, indent, String.data_append]
  apply String.ext
  simp [String.data_append, hex_field]

/-! ## The handler and the channel -/

theorem Unwind_Backtrace_no_write (pcs : List Nat) :
    ∀ (s : err_context_t) (fd : Int) (data : Nat),
      Event.sys_write fd data ∉ (Unwind_Backtrace pcs s).2 := by
  induction pcs with
  | nil => intro s fd data; simp [Unwind_Backtrace]
  | cons pc rest ih =>
    intro s fd data hmem
    have hstores : Event.sys_write fd data ∉ (unwind_callback pc s).stores := by
      unfold unwind_callback
      by_cases hpc : pc = 0 <;> simp [hpc]
    by_cases hcode : (unwind_callback pc s).code = .URC_NO_REASON
    · simp only [Unwind_Backtrace, hcode, if_true] at hmem
      rcases List.mem_append.mp hmem with h | h
      · exact hstores h
      · exact ih _ fd data h
    · simp only [Unwind_Backtrace, hcode, if_false] at hmem
      exact hstores hmem

/-- The actions one invocation of the handler adds to the log, in order. -/
theorem signal_callback_trace (pcs : List Nat) (signo : Int) (si : siginfo_t)
    (sc : ucontext_t) (w : World) :
    (signal_callback pcs signo si sc w).trace
      = w.trace
        ++ [Event.sys_signal signo, Event.sys_signal SIGALRM, Event.sys_alarm 8,
            Event.store_si, Event.store_sc]
        ++ (Unwind_Backtrace pcs { w.err_context with si := .live si, sc := .live sc }).2
        ++ (if w.notifier ≥ 0 then [Event.sys_write w.notifier (wrapUnsigned 64 signo)]
            else []) := by
  unfold signal_callback sys_signal_dfl
  by_cases hn : w.notifier ≥ 0 <;> simp [hn]

theorem signal_callback_err_context (pcs : List Nat) (signo : Int) (si : siginfo_t)
    (sc : ucontext_t) (w : World) :
    (signal_callback pcs signo si sc w).err_context
      = (Unwind_Backtrace pcs { w.err_context with si := .live si, sc := .live sc }).1 := by
  unfold signal_callback sys_signal_dfl
  by_cases hn : w.notifier ≥ 0 <;> simp [hn]

theorem signal_callback_notifier (pcs : List Nat) (signo : Int) (si : siginfo_t)
    (sc : ucontext_t) (w : World) :
    (signal_callback pcs signo si sc w).notifier = w.notifier := by
  unfold signal_callback sys_signal_dfl
  by_cases hn : w.notifier ≥ 0 <;> simp [hn]

theorem wrapUnsigned_of_nonneg (signo : Int) (hlo : 0 ≤ signo) (hhi : signo < 2 ^ 31) :
    wrapUnsigned 64 signo = signo.toNat := by
  unfold wrapUnsigned
  rw [Int.emod_eq_of_lt hlo (by omega)]

/-- C11: in every invocation of the handler with an open channel (`notifier ≥ 0`) the
actions the invocation adds to the log end with one channel write; it is the only
channel write of the invocation, the value written is the signal number, and the
stores of the signal info, of the machine context and of the frames and the frame count
all come before it, so that the snapshot is complete when the write happens. -/
theorem handler_notifies_once_after_capture (pcs : List Nat) (signo : Int) (si : siginfo_t)
    (sc : ucontext_t) (w : World) (hopen : w.notifier ≥ 0) (hlo : 0 ≤ signo)
    (hhi : signo < 2 ^ 31) :
    ∃ before : List Event,
      (signal_callback pcs signo si sc w).trace
        = w.trace ++ before ++ [Event.sys_write w.notifier signo.toNat] ∧
      (∀ fd data, Event.sys_write fd data ∉ before) ∧
      Event.store_si ∈ before ∧ Event.store_sc ∈ before ∧
      (∀ e ∈ (Unwind_Backtrace pcs { w.err_context with si := .live si, sc := .live sc }).2,
        e ∈ before) ∧
      (signal_callback pcs signo si sc w).err_context
        = (Unwind_Backtrace pcs { w.err_context with si := .live si, sc := .live sc }).1 := by
  refine ⟨[Event.sys_signal signo, Event.sys_signal SIGALRM, Event.sys_alarm 8,
            Event.store_si, Event.store_sc]
        ++ (Unwind_Backtrace pcs { w.err_context with si := .live si, sc := .live sc }).2,
    ?_, ?_, ?_, ?_, ?_, signal_callback_err_context pcs signo si sc w⟩
  · rw [signal_callback_trace, if_pos hopen, wrapUnsigned_of_nonneg signo hlo hhi]
    simp only [List.append_assoc]
  · intro fd data hmem
    rcases List.mem_append.mp hmem with h | h
    · simp at h
    · exact Unwind_Backtrace_no_write pcs _ fd data h
  · simp
  · simp
  · intro e he
    exact List.mem_append_right _ he

set_option maxRecDepth 100000 in
/-- Witness of C11: SIGSEGV handled in the process right after initialisation, on a
stack of two frames. -/
theorem handler_notifies_once_after_capture_witness :
    ∃ before : List Event,
      (signal_callback [0x1000, 0x2010] SIGSEGV ⟨SIGSEGV, SEGV_MAPERR⟩ (.aarch64 sigcontext_sample)
          world_after_init).trace
        = world_after_init.trace ++ before ++ [Event.sys_write 3 11] ∧
      (∀ fd data, Event.sys_write fd data ∉ before) ∧
      Event.store_si ∈ before ∧ Event.store_sc ∈ before ∧
      Event.store_frame 1 0x2010 ∈ before := by
  obtain ⟨before, htrace, hnone, hsi, hsc, hunwind, -⟩ :=
    handler_notifies_once_after_capture [0x1000, 0x2010] SIGSEGV ⟨SIGSEGV, SEGV_MAPERR⟩
      (.aarch64 sigcontext_sample) world_after_init (by decide) (by decide) (by decide)
  exact ⟨before, htrace, hnone, hsi, hsc, hunwind _ (by decide)⟩
/-! ## The consumer thread -/

theorem eventfd_counter_append (fd : Int) (l1 l2 : List Event) :
    eventfd_counter fd (l1 ++ l2) = eventfd_counter fd l1 + eventfd_counter fd l2 := by
  induction l1 with
  | nil => simp [eventfd_counter]
  | cons e rest ih =>
    cases e <;> simp [eventfd_counter, ih, Nat.add_assoc]

theorem eventfd_counter_of_no_write (fd : Int) (l : List Event)
    (h : ∀ fd1 data, Event.sys_write fd1 data ∉ l) : eventfd_counter fd l = 0 := by
  induction l with
  | nil => rfl
  | cons e rest ih =>
    have hrest : ∀ fd1 data, Event.sys_write fd1 data ∉ rest :=
      fun fd1 data hmem => h fd1 data (List.mem_cons_of_mem _ hmem)
    cases e with
    | sys_write fd1 data => exact absurd (List.mem_cons_self _ _) (h fd1 data)
    | _ => simpa [eventfd_counter] using ih hrest

theorem wrapSigned_of_signal (signo : Int) (hlo : 0 ≤ signo) (hhi : signo < 2 ^ 31) :
    wrapSigned 32 (signo.toNat : Int) = signo := by
  rw [Int.toNat_of_nonneg hlo]
  unfold wrapSigned
  have hmod : signo % (2 : Int) ^ 32 = signo := Int.emod_eq_of_lt hlo (by omega)
  rw [hmod]
  have hlt : signo < (2 : Int) ^ (32 - 1) := by simpa using hhi
  rw [if_pos hlt]

/-- The counter of the channel after one invocation of the handler with the channel
open: the signal number has been added. -/
theorem eventfd_counter_signal_callback (pcs : List Nat) (signo : Int) (si : siginfo_t)
    (sc : ucontext_t) (w : World) (hopen : w.notifier ≥ 0) :
    eventfd_counter w.notifier (signal_callback pcs signo si sc w).trace
      = eventfd_counter w.notifier w.trace + wrapUnsigned 64 signo := by
  rw [signal_callback_trace, if_pos hopen, eventfd_counter_append, eventfd_counter_append,
    eventfd_counter_append,
    eventfd_counter_of_no_write w.notifier (Unwind_Backtrace pcs _).2
      (Unwind_Backtrace_no_write pcs _)]
  simp [eventfd_counter]

/-- The return of the handler changes neither the channel nor the log. -/
theorem handler_return_trace (w : World) :
    (handler_return w).trace = w.trace ∧ (handler_return w).notifier = w.notifier :=
  ⟨rfl, rfl⟩

/-- Once the handler has returned, the pointers of the snapshot cannot be dereferenced:
`dump_stacktrace` is undefined, whatever the handler stored. -/
theorem dump_stacktrace_after_return (env : Loader) (w : World) :
    dump_stacktrace env (handler_return w).err_context = none := by
  unfold dump_stacktrace handler_return
  cases hsc : w.err_context.sc <;> simp [Ptr.expire, Ptr.deref, hsc]

/-- An invocation of the handler overwrites both pointers: the return of the invocation
before it leaves no mark. -/
theorem signal_callback_after_return (pcs : List Nat) (signo : Int) (si : siginfo_t)
    (sc : ucontext_t) (w : World) :
    signal_callback pcs signo si sc (handler_return w) = signal_callback pcs signo si sc w := by
  unfold signal_callback sys_signal_dfl handler_return
  rfl

/-- While the invocation of the handler for a single fault is still in progress (the
channel open, no notification pending before), the consumer thread, if it reads and
formats then, returns after exactly one invocation of the callback, with the signal
number and the report of the snapshot. -/
theorem single_fault_delivered_while_handler_runs (env : Loader) (garbage : Nat)
    (pcs : List Nat) (signo : Int) (si : siginfo_t) (sc : ucontext_t) (w : World)
    (report : String)
    (hopen : w.notifier ≥ 0) (hidle : eventfd_counter w.notifier w.trace = 0)
    (hlo : 0 < signo) (hhi : signo < 2 ^ 31)
    (hreport : dump_stacktrace env (signal_callback pcs signo si sc w).err_context
      = some report) :
    sys_read_eventfd (signal_callback pcs signo si sc w).notifier
        (eventfd_counter (signal_callback pcs signo si sc w).notifier
          (signal_callback pcs signo si sc w).trace)
      = .value signo.toNat ∧
    consumer_thread true env garbage (signal_callback pcs signo si sc w)
        (signal_callback pcs signo si sc w)
      = .returned [(signo, report)] := by
  have hcount : eventfd_counter w.notifier (signal_callback pcs signo si sc w).trace
      = signo.toNat := by
    rw [eventfd_counter_signal_callback pcs signo si sc w hopen, hidle,
      wrapUnsigned_of_nonneg signo (Int.le_of_lt hlo) hhi, Nat.zero_add]
  have hpos : signo.toNat ≠ 0 := by omega
  have hread : sys_read_eventfd (signal_callback pcs signo si sc w).notifier
      (eventfd_counter (signal_callback pcs signo si sc w).notifier
        (signal_callback pcs signo si sc w).trace) = .value signo.toNat := by
    rw [signal_callback_notifier, hcount]
    unfold sys_read_eventfd
    rw [if_neg (by omega), if_neg hpos]
  refine ⟨hread, ?_⟩
  unfold consumer_thread
  rw [hread]
  simp only [crash_callback, hreport, wrapSigned_of_signal signo (Int.le_of_lt hlo) hhi]
  rfl

set_option maxRecDepth 100000 in
/-- C12 (evaluation at the failing input): a single SIGSEGV handled with the channel
open, right after initialisation.  The handler stores the two pointers the kernel
passed, writes 11 to the channel and returns; the signal frame they point into is then
gone.  The consumer's `read` returns 11, but `dump_stacktrace` of the process-wide
snapshot dereferences the dangling pointers: the run of the thread function is
undefined and no delivery of `(11, report)` follows.  Only if the thread formats while
the handler is still in progress is the callback invoked with 11 and the report. -/
theorem returned_handler_leaves_dangling_snapshot :
    world_after_fault.notifier = 3 ∧
    sys_read_eventfd world_after_fault.notifier
        (eventfd_counter world_after_fault.notifier world_after_fault.trace)
      = .value 11 ∧
    (handler_return world_after_fault).err_context.si.deref = none ∧
    (handler_return world_after_fault).err_context.sc.deref = none ∧
    (handler_return world_after_fault).err_context.size = 2 ∧
    dump_stacktrace loader_sample (handler_return world_after_fault).err_context = none ∧
    consumer_thread true loader_sample 0 world_after_fault (handler_return world_after_fault)
      = .undefined ∧
    consumer_thread true loader_sample 0 (handler_return world_after_fault)
        (handler_return world_after_fault)
      = .undefined ∧
    consumer_thread true loader_sample 0 world_after_fault world_after_fault
      = .returned [(11, report_sample)] := by
  refine ⟨by decide, by decide, rfl, rfl, by decide, by decide, by decide, by decide,
    by decide⟩

/-- The counter of the channel after the handler has run for a sequence of faults with
the channel open: every invocation has added its signal number. -/
theorem eventfd_counter_handle_faults (faults : List Fault) :
    ∀ w : World, w.notifier ≥ 0 →
      eventfd_counter w.notifier (handle_faults faults w).trace
        = eventfd_counter w.notifier w.trace
          + (faults.map (fun f => wrapUnsigned 64 f.signo)).sum := by
  induction faults with
  | nil => intro w _; simp [handle_faults]
  | cons f rest ih =>
    intro w hopen
    simp only [handle_faults, List.foldl_cons] at ih ⊢
    have hnot := signal_callback_notifier f.pcs f.signo f.si f.sc w
    have hstep := ih (signal_callback f.pcs f.signo f.si f.sc w) (by rw [hnot]; exact hopen)
    rw [hnot] at hstep
    rw [hstep, eventfd_counter_signal_callback f.pcs f.signo f.si f.sc w hopen]
    simp only [List.map_cons, List.sum_cons, Nat.add_assoc]

/-- C13 (as the code has it): the thread function has no loop: it reads the channel
once, formats once, invokes the callback once and returns.  Whenever its `read` is
served and whenever it formats, the consumer thread over its whole life makes at most
one callback delivery; it makes exactly one when the JVM attach succeeds, a
notification is pending at the `read` and the snapshot renders when it is formatted, and
the signal number delivered is then the counter of the channel.  After `n` invocations
of the handler with the channel open that counter is the sum of the `n` signal numbers
written: the `n` notifications are merged into one. -/
theorem consumer_delivers_at_most_once (attach_ok : Bool) (env : Loader) (garbage : Nat)
    (at_read at_dump : World) :
    (consumer_thread attach_ok env garbage at_read at_dump).calls.length ≤ 1 ∧
    (∀ report : String, attach_ok = true → at_read.notifier ≥ 0 →
      eventfd_counter at_read.notifier at_read.trace ≠ 0 →
      dump_stacktrace env at_dump.err_context = some report →
      consumer_thread attach_ok env garbage at_read at_dump
        = .returned
            [(wrapSigned 32 (eventfd_counter at_read.notifier at_read.trace), report)]) ∧
    (∀ (faults : List Fault) (w : World), w.notifier ≥ 0 →
      eventfd_counter w.notifier w.trace = 0 →
      eventfd_counter w.notifier (handle_faults faults w).trace
        = (faults.map (fun f => wrapUnsigned 64 f.signo)).sum) := by
  refine ⟨?_, ?_, ?_⟩
  · unfold consumer_thread crash_callback
    cases attach_ok
    · simp [ConsumerOutcome.calls]
    · cases sys_read_eventfd at_read.notifier
          (eventfd_counter at_read.notifier at_read.trace) <;>
        cases dump_stacktrace env at_dump.err_context <;>
        simp [ConsumerOutcome.calls]
  · intro report hattach hopen hpending hreport
    unfold consumer_thread sys_read_eventfd
    rw [if_neg (by omega), if_neg hpending]
    simp [crash_callback, hattach, hreport]
  · intro faults w hopen hidle
    rw [eventfd_counter_handle_faults faults w hopen, hidle, Nat.zero_add]

set_option maxRecDepth 100000 in
/-- Witness of C13: SIGHUP and then SIGINT handled with the channel open before the
consumer thread reads and formats (during the second invocation).  The one delivery
carries the counter, 3, and the report of the snapshot as it is then. -/
theorem consumer_delivers_at_most_once_witness :
    consumer_thread true loader_sample 0 world_after_two_faults world_after_two_faults
      = .returned [(3, report_two_faults_sample)] :=
  ((consumer_delivers_at_most_once true loader_sample 0 world_after_two_faults
      world_after_two_faults).2.1 report_two_faults_sample rfl (by decide) (by decide)
      (by decide)).trans (by decide)

set_option maxRecDepth 100000 in
/-- C13 (counterexample): SIGHUP and then SIGINT are handled with the channel open before
the consumer thread reads; both invocations have written to the channel (1 and 2).  The
thread makes one callback delivery, not two, and the signal number it delivers is 3, the
sum of the two. -/
theorem two_notifications_one_delivery :
    Event.sys_write 3 1 ∈ world_after_two_faults.trace ∧
    Event.sys_write 3 2 ∈ world_after_two_faults.trace ∧
    eventfd_counter world_after_two_faults.notifier world_after_two_faults.trace = 3 ∧
    (consumer_thread true loader_sample 0 world_after_two_faults
      world_after_two_faults).calls.length = 1 ∧
    (consumer_thread true loader_sample 0 world_after_two_faults
      world_after_two_faults).calls.map Prod.fst = [3] := by
  refine ⟨by decide, by decide, by decide, by decide, by decide⟩

/-! ## Installation and initialisation -/

/-- The loop of `register_signals`: every signal is passed to `sigaction`, in order;
the accepted ones get the action, the others keep their disposition; the thread mask
is the restored old one as soon as one signal was rejected. -/
theorem register_loop_spec (os : Platform) (siga : sigaction_t) (old : sigset_t)
    (signals : List Nat) :
    ∀ st : SignalState,
      (signals.foldl (register_one os siga old) st).sigaction_calls
          = st.sigaction_calls ++ signals ∧
      (∀ n, (signals.foldl (register_one os siga old) st).actions n
          = if n ∈ signals ∧ os.sigaction_ok n = true then some siga else st.actions n) ∧
      (signals.foldl (register_one os siga old) st).thread_mask
          = (if signals.all os.sigaction_ok then st.thread_mask else old) ∧
      (signals.foldl (register_one os siga old) st).altstack = st.altstack := by
  induction signals with
  | nil => intro st; simp
  | cons signum rest ih =>
    intro st
    obtain ⟨h1, h2, h3, h4⟩ := ih (register_one os siga old st signum)
    simp only [List.foldl_cons]
    refine ⟨?_, ?_, ?_, ?_⟩
    · rw [h1]
      by_cases hok : os.sigaction_ok signum = true <;> simp [register_one, hok]
    · intro n
      rw [h2 n]
      by_cases hok : os.sigaction_ok signum = true <;> by_cases hn : n = signum
      · subst hn
        simp [register_one, hok]
      · simp [register_one, hok, hn, Function.update_noteq hn]
      · subst hn
        simp [register_one, hok]
      · simp [register_one, hok, hn]
    · rw [h3]
      by_cases hok : os.sigaction_ok signum = true <;> simp [register_one, hok]
    · rw [h4]
      by_cases hok : os.sigaction_ok signum = true <;> simp [register_one, hok]

/-- C14: for every signal set and every pattern of rejections by the platform,
`register_signals` passes every signal of the set to `sigaction`, in order, and every
signal whose action the platform accepts ends up bound to the handler (with the full
mask and the flags `SA_SIGINFO | SA_ONSTACK | SA_RESTART`), whether or not the alternate
stack or the action of another signal was rejected. -/
theorem register_signals_best_effort (os : Platform) (signals : List Nat) (handler : Nat)
    (st : SignalState) :
    (register_signals os signals handler st).sigaction_calls
        = st.sigaction_calls ++ signals ∧
    (∀ signum ∈ signals, os.sigaction_ok signum = true →
      ∃ siga : sigaction_t,
        (register_signals os signals handler st).actions signum = some siga ∧
        siga.sa_sigaction = handler ∧ siga.sa_mask = sigfillset ∧
        siga.sa_flags = SA_SIGINFO ||| SA_ONSTACK ||| SA_RESTART ∧
        (register_signals os signals handler st).bound handler signum = true) := by
  unfold register_signals
  refine ⟨?_, ?_⟩
  · rw [(register_loop_spec os _ _ signals _).1]
    by_cases hs : os.sigaltstack_ok ⟨os.calloc, 0, os.SIGSTKSZ⟩ = true <;> simp [hs]
  · intro signum hmem hok
    refine ⟨⟨handler, sigfillset, SA_SIGINFO ||| SA_ONSTACK ||| SA_RESTART⟩,
      ((register_loop_spec os _ _ signals _).2.1 signum).trans ?_, rfl, rfl, rfl, ?_⟩
    · rw [if_pos ⟨hmem, hok⟩]
    · unfold SignalState.bound
      rw [(register_loop_spec os _ _ signals _).2.1 signum, if_pos ⟨hmem, hok⟩]
      simp

/-- The dispositions after `register_signals`. -/
theorem register_signals_actions (os : Platform) (signals : List Nat) (handler : Nat)
    (st : SignalState) (n : Nat) :
    (register_signals os signals handler st).actions n
      = if n ∈ signals ∧ os.sigaction_ok n = true then
          some ⟨handler, sigfillset, SA_SIGINFO ||| SA_ONSTACK ||| SA_RESTART⟩
        else st.actions n := by
  unfold register_signals
  rw [(register_loop_spec os _ _ signals _).2.1 n]
  by_cases hs : os.sigaltstack_ok ⟨os.calloc, 0, os.SIGSTKSZ⟩ = true <;> simp [hs]

/-- The thread mask after `register_signals`: SIGQUIT unblocked when every action was
accepted, the mask of before the call otherwise. -/
theorem register_signals_thread_mask (os : Platform) (signals : List Nat) (handler : Nat)
    (st : SignalState) :
    (register_signals os signals handler st).thread_mask
      = if signals.all os.sigaction_ok then
          (fun s => st.thread_mask s && !(sigaddset sigemptyset SIGQUIT.toNat) s)
        else st.thread_mask := by
  unfold register_signals
  rw [(register_loop_spec os _ _ signals _).2.2.1]
  by_cases hs : os.sigaltstack_ok ⟨os.calloc, 0, os.SIGSTKSZ⟩ = true <;> simp [hs]

/-- C16: for every signal set and handler, running `register_signals` twice leaves the
dispositions (handler, mask, flags) of all signals and the signal mask of the thread
equal to those after running it once. -/
theorem register_signals_idempotent (os : Platform) (signals : List Nat) (handler : Nat)
    (st : SignalState) :
    (register_signals os signals handler (register_signals os signals handler st)).actions
        = (register_signals os signals handler st).actions ∧
    (register_signals os signals handler
        (register_signals os signals handler st)).thread_mask
        = (register_signals os signals handler st).thread_mask := by
  refine ⟨?_, ?_⟩
  · funext n
    rw [register_signals_actions os signals handler _ n,
      register_signals_actions os signals handler st n]
    by_cases h : n ∈ signals ∧ os.sigaction_ok n = true <;> simp [h]
  · rw [register_signals_thread_mask os signals handler _,
      register_signals_thread_mask os signals handler st]
    by_cases h : signals.all os.sigaction_ok = true
    · simp only [h, if_true]
      funext s
      cases st.thread_mask s <;> cases sigaddset sigemptyset SIGQUIT.toNat s <;> rfl
    · simp only [h, if_false]
      simp

theorem handle_faults_notifier (faults : List Fault) :
    ∀ w : World, (handle_faults faults w).notifier = w.notifier := by
  induction faults with
  | nil => intro w; rfl
  | cons f rest ih =>
    intro w
    simp only [handle_faults, List.foldl_cons] at ih ⊢
    rw [ih, signal_callback_notifier]

/-- With the channel absent no invocation of the handler writes to a channel. -/
theorem handle_faults_no_write (faults : List Fault) :
    ∀ w : World, w.notifier < 0 → (∀ fd data, Event.sys_write fd data ∉ w.trace) →
      ∀ fd data, Event.sys_write fd data ∉ (handle_faults faults w).trace := by
  induction faults with
  | nil => intro w _ hw; exact hw
  | cons f rest ih =>
    intro w hneg hw
    simp only [handle_faults, List.foldl_cons] at ih ⊢
    apply ih
    · rw [signal_callback_notifier]; exact hneg
    · intro fd data hmem
      rw [signal_callback_trace, if_neg (by omega)] at hmem
      simp only [List.append_nil, List.mem_append] at hmem
      rcases hmem with (h | h) | h
      · exact hw fd data h
      · simp at h
      · exact Unwind_Backtrace_no_write f.pcs _ fd data h

/-- C15: when the consumer thread cannot be created, `init_native_crash` closes the
channel and sets `notifier = -1`; after that no invocation of the handler, for whatever
sequence of faults, writes to a channel, and the callback is never invoked. -/
theorem failed_setup_never_notifies (os : Platform) (st : SignalState)
    (hfail : os.pthread_create_ok = false) :
    (init_native_crash os st).closed = [os.eventfd] ∧
    (init_native_crash os st).world.notifier = -1 ∧
    (init_native_crash os st).consumer_started = false ∧
    (∀ (faults : List Fault) (fd : Int) (data : Nat),
      Event.sys_write fd data ∉ (handle_faults faults (init_native_crash os st).world).trace) ∧
    (∀ (attach_ok : Bool) (env : Loader) (garbage : Nat) (at_read at_dump : World),
      (init_native_crash os st).callback_calls attach_ok env garbage at_read at_dump
        = []) := by
  have hinit : (init_native_crash os st).world.notifier = -1 ∧
      (init_native_crash os st).world.trace = [] ∧
      (init_native_crash os st).consumer_started = false ∧
      (init_native_crash os st).closed = [os.eventfd] := by
    simp [init_native_crash, hfail]
  obtain ⟨hnot, htrace, hstart, hclosed⟩ := hinit
  refine ⟨hclosed, hnot, hstart, ?_, ?_⟩
  · intro faults fd data
    apply handle_faults_no_write faults _ (by rw [hnot]; decide)
    intro fd1 data1
    rw [htrace]
    simp
  · intro attach_ok env garbage at_read at_dump
    simp [Runtime.callback_calls, hstart]

set_option maxRecDepth 100000 in
/-- Witness of C15: on `platform_failing` the descriptor 3 is closed, `notifier` is
`-1`, and SIGSEGV handled afterwards adds no channel write to the log. -/
theorem failed_setup_never_notifies_witness :
    platform_failing.pthread_create_ok = false ∧
    (init_native_crash platform_failing signals_fresh).closed = [3] ∧
    (init_native_crash platform_failing signals_fresh).world.notifier = -1 ∧
    (∀ fd data, Event.sys_write fd data ∉
      (handle_faults
          [⟨[0x1000, 0x2010], SIGSEGV, ⟨SIGSEGV, SEGV_MAPERR⟩, .aarch64 sigcontext_sample⟩]
        (init_native_crash platform_failing signals_fresh).world).trace) ∧
    (init_native_crash platform_failing signals_fresh).callback_calls true loader_sample 0
      world_after_fault world_after_fault = [] := by
  obtain ⟨hclosed, hnot, -, hwrite, hcalls⟩ :=
    failed_setup_never_notifies platform_failing signals_fresh rfl
  exact ⟨rfl, hclosed, hnot, hwrite _, hcalls _ _ _ _ _⟩

/-- The state that C5 starts from is the one `init_native_crash` produces on a platform
that accepts every call. -/
theorem init_native_crash_sample :
    (init_native_crash platform_sample signals_fresh).world.notifier
      = world_after_init.notifier ∧
    (init_native_crash platform_sample signals_fresh).world.handled
      = world_after_init.handled ∧
    (init_native_crash platform_sample signals_fresh).world.trace = [] ∧
    (init_native_crash platform_sample signals_fresh).consumer_started = true := by
  refine ⟨by decide, by decide, by decide, by decide⟩

/-! ## The description table: fallbacks -/

/-- Outside the outer keys and the fallback's sub-codes, `get_error_string` formats the
generic entry (stated for the 64-bit targets, where every argument takes one slot). -/
theorem get_error_string_fallback (signal code : Int) (addr : Nat)
    (hsig : signal ∉ outer_keys) (hcode : code ∉ fallback_codes) :
    get_error_string 64 signal code addr
      = asprintf 64 format
          [.int signal, .str "Unknown", .int code, .str "Unknown", .int addr,
           .str "Unknown signal"] := by
  simp only [outer_keys, List.mem_cons, List.mem_singleton, List.not_mem_nil, or_false,
    not_or] at hsig
  simp only [fallback_codes, List.mem_cons, List.mem_singleton, List.not_mem_nil, or_false,
    not_or] at hcode
  obtain ⟨h1, h2, h3, h4, h5, h6, h7, h8, h9, h10, h11, h12, h13, h14, h15, h16, h17, h18,
    h19, h20, h21, h22, h23, h24, h25, h26, h27, h28⟩ := hsig
  obtain ⟨c1, c2, c3, c4, c5⟩ := hcode
  unfold get_error_string
  simp only [h1, h2, h3, h4, h5, h6, h7, h8, h9, h10, h11, h12, h13, h14, h15, h16, h17, h18,
    h19, h20, h21, h22, h23, h24, h25, h26, h27, h28, c1, c2, c3, c4, c5, if_false]
  rfl

/-- In the build for aarch64 or x86_64: for every signal number that is not an outer key
of the table and every sub-code the inner lookup of the fallback does not handle,
`get_error_string` returns the generic fallback text; it contains `Unknown signal` and
is not empty. -/
theorem unknown_signal_fallback (signal code : Int) (addr : Nat)
    (hsig : signal ∉ outer_keys) (hcode : code ∉ fallback_codes) :
    ∃ text : String, get_error_string 64 signal code addr = some text ∧
      text ≠ "" ∧ occursIn "Unknown signal" text ∧
      text = "signal: " ++ String.mk (decInt (wrapSigned 32 signal)) ++ " (" ++ "Unknown"
          ++ "), code: " ++ String.mk (decInt (wrapSigned 32 code)) ++ " (" ++ "Unknown"
          ++ "), fault addr: 0x" ++ String.mk (hexDigits (addr % 2 ^ 32))
          ++ " (" ++ "Unknown signal" ++ ")" := by
  rw [get_error_string_fallback signal code addr hsig hcode, asprintf_format]
  refine ⟨_, rfl, ?_, ?_, rfl⟩
  · intro h
    have hdata := congrArg String.data h
    simp [String.data_append] at hdata
  · refine ⟨("signal: " ++ String.mk (decInt (wrapSigned 32 signal)) ++ " (" ++ "Unknown"
          ++ "), code: " ++ String.mk (decInt (wrapSigned 32 code)) ++ " (" ++ "Unknown"
          ++ "), fault addr: 0x" ++ String.mk (hexDigits (addr % 2 ^ 32)) ++ " (").data,
        ")".data, ?_⟩
    simp only [String.data_append, List.append_assoc]

set_option maxRecDepth 100000 in
/-- The real-time signal 34 with sub-code `SI_TKILL` (-6), in the build for aarch64 or
x86_64. -/
theorem unknown_signal_fallback_witness :
    (34 : Int) ∉ outer_keys ∧ (-6 : Int) ∉ fallback_codes ∧
    get_error_string 64 34 (-6) 0x1000
      = some "signal: 34 (Unknown), code: -6 (Unknown), fault addr: 0x1000 (Unknown signal)" := by
  obtain ⟨text, htext, -, -, heq⟩ :=
    unknown_signal_fallback 34 (-6) 0x1000 (by decide) (by decide)
  refine ⟨by decide, by decide, ?_⟩
  rw [htext, heq]
  decide

/-! ## The fallback on the 32-bit targets -/

theorem va_list_format_words (signal code : Int) (addr : Nat) (name cname desc : String) :
    va_list 32 [.int signal, .str name, .int code, .str cname, .uint64 addr, .str desc]
      = [.int signal, .str name, .int code, .str cname, .int ((addr % 2 ^ 32 : Nat) : Int),
         .int ((addr / 2 ^ 32 : Nat) : Int), .str desc] := rfl

/-- With a word between the argument of `%x` and the last string, the last `%s` of
`format` finds an integer: the call is undefined. -/
theorem asprintf_format_high_word (signal code lo hi : Int) (name cname desc : String) :
    asprintf 32 format
      [.int signal, .str name, .int code, .str cname, .int lo, .int hi, .str desc]
      = none := by
  simp [asprintf, format, vformat]

/-- On arm and i386 the `uint64_t` address takes two words: `%x` reads the low one and
the last `%s` of `format` finds the high one, an integer where a string pointer is
expected.  The call is undefined whatever the arguments. -/
theorem asprintf_format_words (signal code : Int) (addr : Nat) (name cname desc : String) :
    asprintf 32 format
      (va_list 32 [.int signal, .str name, .int code, .str cname, .uint64 addr, .str desc])
      = none := by
  rw [va_list_format_words]
  exact asprintf_format_high_word _ _ _ _ _ _ _

/-- Outside the outer keys and the fallback's sub-codes, `get_error_string` compiled for
arm or i386 returns no text. -/
theorem get_error_string_fallback_words (signal code : Int) (addr : Nat)
    (hsig : signal ∉ outer_keys) (hcode : code ∉ fallback_codes) :
    get_error_string 32 signal code addr = none := by
  simp only [outer_keys, List.mem_cons, List.mem_singleton, List.not_mem_nil, or_false,
    not_or] at hsig
  simp only [fallback_codes, List.mem_cons, List.mem_singleton, List.not_mem_nil, or_false,
    not_or] at hcode
  obtain ⟨h1, h2, h3, h4, h5, h6, h7, h8, h9, h10, h11, h12, h13, h14, h15, h16, h17, h18,
    h19, h20, h21, h22, h23, h24, h25, h26, h27, h28⟩ := hsig
  obtain ⟨c1, c2, c3, c4, c5⟩ := hcode
  unfold get_error_string
  simp only [h1, h2, h3, h4, h5, h6, h7, h8, h9, h10, h11, h12, h13, h14, h15, h16, h17, h18,
    h19, h20, h21, h22, h23, h24, h25, h26, h27, h28, c1, c2, c3, c4, c5, if_false]
  exact asprintf_format_words signal code addr "Unknown" "Unknown" "Unknown signal"

set_option maxRecDepth 100000 in
/-- C17 (evaluation at the failing input): the real-time signal 34 with the sub-code
`SI_TKILL` (-6) at the address `0x1000`, in the build for arm or i386.  The generic
entry passes the `uint64_t` address to `%x`: the argument takes two words, `%x` reads
the low one and the last `%s` is left the high word, `0`, instead of the pointer to
`Unknown signal`.  The call is undefined and no text containing `Unknown signal` is
returned, for this and for every other unmatched pair.  In the build for aarch64 or
x86_64 the same call returns the generic text. -/
theorem unknown_signal_text_lost_on_32_bit :
    (34 : Int) ∉ outer_keys ∧ (-6 : Int) ∉ fallback_codes ∧
    va_list 32 [.int 34, .str "Unknown", .int (-6), .str "Unknown", .uint64 0x1000,
        .str "Unknown signal"]
      = [.int 34, .str "Unknown", .int (-6), .str "Unknown", .int 0x1000, .int 0,
         .str "Unknown signal"] ∧
    get_error_string 32 34 (-6) 0x1000 = none ∧
    (∀ (signal code : Int) (addr : Nat), signal ∉ outer_keys → code ∉ fallback_codes →
      get_error_string 32 signal code addr = none) ∧
    get_error_string 64 34 (-6) 0x1000
      = some "signal: 34 (Unknown), code: -6 (Unknown), fault addr: 0x1000 (Unknown signal)" := by
  refine ⟨by decide, by decide, by decide, by decide, ?_, by decide⟩
  intro signal code addr hsig hcode
  exact get_error_string_fallback_words signal code addr hsig hcode

/-! ## The description table: `default` branches -/

/-- `format` has six conversions; with the four arguments the `default` branches of
SIGTRAP and SIGCHLD pass, the fifth conversion finds no argument: the call is
undefined. -/
theorem asprintf_format_short (signal : Int) (addr : Nat) (name desc : String) :
    asprintf 64 format [.int signal, .str name, .int addr, .str desc] = none := by
  simp [asprintf, format, vformat]

/-- `format2` with the arguments of the kinds `get_error_string` passes. -/
theorem asprintf_format2 (signal : Int) (addr : Nat) (name desc : String) :
    asprintf 64 format2 [.int signal, .str name, .int addr, .str desc]
      = some ("signal: " ++ String.mk (decInt (wrapSigned 32 signal)) ++ " (" ++ name
          ++ "), fault addr: 0x" ++ String.mk (hexDigits (addr % 2 ^ 32))
          ++ " (" ++ desc ++ ")") := by
  simp [asprintf, format2, vformat, render_d, render_x, render_s, intBits, padLeft_zero,
    wrapUnsigned_natCast]
  apply String.ext
  simp [String.data_append, decInt]

/-- The `default` branch of SIGTRAP is undefined for every sub-code and address. -/
theorem sigtrap_default_undefined (code : Int) (addr : Nat) (h1 : code ≠ TRAP_BRKPT)
    (h2 : code ≠ TRAP_TRACE) : get_error_string 64 SIGTRAP code addr = none := by
  unfold get_error_string
  simp only [h1, h2, if_false]
  exact asprintf_format_short SIGTRAP addr "SIGTRAP" "Trap"

/-- The `default` branch of SIGCHLD is undefined for every sub-code and address. -/
theorem sigchld_default_undefined (code : Int) (addr : Nat)
    (h : code ∉ [CLD_EXITED, CLD_KILLED, CLD_DUMPED, CLD_TRAPPED, CLD_STOPPED, CLD_CONTINUED]) :
    get_error_string 64 SIGCHLD code addr = none := by
  simp only [List.mem_cons, List.mem_singleton, List.not_mem_nil, or_false, not_or] at h
  obtain ⟨c1, c2, c3, c4, c5, c6⟩ := h
  unfold get_error_string
  simp only [c1, c2, c3, c4, c5, c6, if_false]
  exact asprintf_format_short SIGCHLD addr "SIGCHLD" "Child"

/-- The `default` branch of SIGSEGV passes six arguments to `format2`: the sub-code is
written where the address belongs and `SEGV_ACCERR` where the description belongs. -/
theorem sigsegv_default_text (code : Int) (addr : Nat) (h1 : code ≠ SEGV_MAPERR)
    (h2 : code ≠ SEGV_ACCERR) :
    get_error_string 64 SIGSEGV code addr
      = some ("signal: " ++ String.mk (decInt (wrapSigned 32 SIGSEGV)) ++ " (" ++ "SIGSEGV"
          ++ "), fault addr: 0x" ++ String.mk (hexDigits (wrapUnsigned 32 code))
          ++ " (" ++ "SEGV_ACCERR" ++ ")") := by
  unfold get_error_string
  simp only [h1, h2, if_false]
  show asprintf 64 format2 [.int SIGSEGV, .str "SIGSEGV", .int code, .str "SEGV_ACCERR",
    .int (addr : Int), .str "Segmentation violation"] = _
  simp [asprintf, format2, vformat, render_d, render_x, render_s, intBits, padLeft_zero]
  apply String.ext
  simp [String.data_append, decInt]

/-- The `default` branches of SIGILL, SIGFPE, SIGBUS and SIGPOLL: the signal's name, the
low 32 bits of the address in hexadecimal and the generic description of the signal at
the end. -/
theorem default_description (addr : Nat) :
    (∀ code : Int, code ∉ [ILL_ILLOPC, ILL_ILLOPN, ILL_ILLADR, ILL_ILLTRP, ILL_PRVOPC,
        ILL_PRVREG, ILL_COPROC, ILL_BADSTK] →
      get_error_string 64 SIGILL code addr
        = some ("signal: " ++ String.mk (decInt (wrapSigned 32 SIGILL)) ++ " (" ++ "SIGILL"
            ++ "), fault addr: 0x" ++ String.mk (hexDigits (addr % 2 ^ 32))
            ++ " (" ++ "Illegal operation" ++ ")")) ∧
    (∀ code : Int, code ∉ [FPE_INTDIV, FPE_INTOVF, FPE_FLTDIV, FPE_FLTOVF, FPE_FLTUND,
        FPE_FLTRES, FPE_FLTINV, FPE_FLTSUB] →
      get_error_string 64 SIGFPE code addr
        = some ("signal: " ++ String.mk (decInt (wrapSigned 32 SIGFPE)) ++ " (" ++ "SIGFPE"
            ++ "), fault addr: 0x" ++ String.mk (hexDigits (addr % 2 ^ 32))
            ++ " (" ++ "Floating-point" ++ ")")) ∧
    (∀ code : Int, code ∉ [BUS_ADRALN, BUS_ADRERR, BUS_OBJERR] →
      get_error_string 64 SIGBUS code addr
        = some ("signal: " ++ String.mk (decInt (wrapSigned 32 SIGBUS)) ++ " (" ++ "SIGBUS"
            ++ "), fault addr: 0x" ++ String.mk (hexDigits (addr % 2 ^ 32))
            ++ " (" ++ "Bus error" ++ ")")) ∧
    (∀ code : Int, code ∉ [POLL_IN, POLL_OUT, POLL_MSG, POLL_ERR, POLL_PRI, POLL_HUP] →
      get_error_string 64 SIGPOLL code addr
        = some ("signal: " ++ String.mk (decInt (wrapSigned 32 SIGPOLL)) ++ " (" ++ "SIGPOLL"
            ++ "), fault addr: 0x" ++ String.mk (hexDigits (addr % 2 ^ 32))
            ++ " (" ++ "Pool" ++ ")")) := by
  refine ⟨?_, ?_, ?_, ?_⟩
  · intro code h
    simp only [List.mem_cons, List.mem_singleton, List.not_mem_nil, or_false, not_or] at h
    obtain ⟨c1, c2, c3, c4, c5, c6, c7, c8⟩ := h
    rw [← asprintf_format2]
    unfold get_error_string
    simp only [c1, c2, c3, c4, c5, c6, c7, c8, if_false, if_true]
    rfl
  · intro code h
    simp only [List.mem_cons, List.mem_singleton, List.not_mem_nil, or_false, not_or] at h
    obtain ⟨c1, c2, c3, c4, c5, c6, c7, c8⟩ := h
    rw [← asprintf_format2]
    unfold get_error_string
    simp only [c1, c2, c3, c4, c5, c6, c7, c8, if_false, if_true]
    rfl
  · intro code h
    simp only [List.mem_cons, List.mem_singleton, List.not_mem_nil, or_false, not_or] at h
    obtain ⟨c1, c2, c3⟩ := h
    rw [← asprintf_format2]
    unfold get_error_string
    simp only [c1, c2, c3, if_false, if_true]
    rfl
  · intro code h
    simp only [List.mem_cons, List.mem_singleton, List.not_mem_nil, or_false, not_or] at h
    obtain ⟨c1, c2, c3, c4, c5, c6⟩ := h
    rw [← asprintf_format2]
    unfold get_error_string
    simp only [c1, c2, c3, c4, c5, c6, if_false, if_true]
    rfl

set_option maxRecDepth 100000 in
/-- C18 (evaluation at the failing input): for SIGTRAP with the sub-code `TRAP_HWBKPT`
(4) and for SIGCHLD with the sub-code `SI_USER` the chosen call passes four arguments
to `format`, whose last two conversions find no argument: no text is returned, and the
report of a snapshot of such a SIGTRAP is undefined as well. -/
theorem default_branch_leaves_placeholders_unsupplied :
    get_error_string 64 SIGTRAP 4 0x7fdeadbeef = none ∧
    get_error_string 64 SIGCHLD SI_USER 0 = none ∧
    asprintf 64 format [.int SIGTRAP, .str "SIGTRAP", .int (0x7fdeadbeef : Nat), .str "Trap"]
      = none ∧
    dump_stacktrace loader_sample snapshot_sigtrap = none := by
  refine ⟨by decide, by decide, by decide, by decide⟩

set_option maxRecDepth 100000 in
/-- C19 (evaluation at the failing input): for SIGSEGV with the unmatched sub-code
`SI_TKILL` (-6) at the fault address `0x1234` the text shows the sub-code where the
address belongs and `SEGV_ACCERR` where the description belongs: neither the address
nor `Segmentation violation` occurs.  For SIGTRAP and SIGCHLD with an unmatched
sub-code no text is returned. -/
theorem unmatched_subcode_description_wrong :
    get_error_string 64 SIGSEGV (-6) 0x1234 = some sigsegv_default_sample ∧
    ¬ occursIn "1234" sigsegv_default_sample ∧
    ¬ occursIn "Segmentation violation" sigsegv_default_sample ∧
    get_error_string 64 SIGTRAP (-6) 0x1234 = none ∧
    get_error_string 64 SIGCHLD (-6) 0x1234 = none := by
  refine ⟨by decide, by decide, by decide, by decide, by decide⟩

/-! ## The zero address -/

theorem Unwind_Backtrace_stores_nonzero (pcs : List Nat) :
    ∀ (s : err_context_t) (idx : Nat), Event.store_frame idx 0 ∉ (Unwind_Backtrace pcs s).2 := by
  induction pcs with
  | nil => intro s idx; simp [Unwind_Backtrace]
  | cons pc rest ih =>
    intro s idx hmem
    have hstores : Event.store_frame idx 0 ∉ (unwind_callback pc s).stores := by
      unfold unwind_callback
      by_cases hpc : pc = 0
      · simp [hpc]
      · simp only [hpc, ne_eq, not_false_eq_true, if_true, List.mem_cons,
          List.mem_singleton, List.not_mem_nil, or_false]
        intro h
        rcases h with h | h
        · injection h with _ h2
          exact hpc h2.symm
        · cases h
    by_cases hcode : (unwind_callback pc s).code = .URC_NO_REASON
    · simp only [Unwind_Backtrace, hcode, if_true] at hmem
      rcases List.mem_append.mp hmem with h | h
      · exact hstores h
      · exact ih _ idx h
    · simp only [Unwind_Backtrace, hcode, if_false] at hmem
      exact hstores hmem

/-- C20 (as the code has it): a return address equal to 0 is not appended to `frames`,
and unwinding goes on after it: into an empty snapshot the run stores the non-zero
addresses delivered before and after the zero alike, in order, up to the capacity. -/
theorem zero_address_is_skipped (before after : List Nat) (si : Ptr siginfo_t)
    (sc : Ptr ucontext_t) (frames : Nat → Nat) :
    (∀ idx, Event.store_frame idx 0
        ∉ (Unwind_Backtrace (before ++ 0 :: after) ⟨si, sc, 0, frames⟩).2) ∧
    (Unwind_Backtrace (before ++ 0 :: after) ⟨si, sc, 0, frames⟩).1.size
      = min ((before ++ after).filter (fun pc => pc ≠ 0)).length 32 ∧
    (∀ i, i < (Unwind_Backtrace (before ++ 0 :: after) ⟨si, sc, 0, frames⟩).1.size →
      ((before ++ after).filter (fun pc => pc ≠ 0))[i]?
        = some ((Unwind_Backtrace (before ++ 0 :: after) ⟨si, sc, 0, frames⟩).1.frames i)) := by
  obtain ⟨h1, -, h3, -⟩ :=
    Unwind_Backtrace_spec (before ++ 0 :: after) ⟨si, sc, 0, frames⟩
      (by simp [STACK_FRAMES_MAX_eq])
  have hfilter : (before ++ 0 :: after).filter (fun pc => pc ≠ 0)
      = (before ++ after).filter (fun pc => pc ≠ 0) := by
    simp [List.filter_append]
  rw [hfilter] at h1 h3
  refine ⟨Unwind_Backtrace_stores_nonzero _ _, ?_, ?_⟩
  · simpa [STACK_FRAMES_MAX_eq] using h1
  · intro i hi
    simpa using h3 i (by simpa using hi)

/-- C20 (counterexample): the unwinder delivers `0xC0`, then 0, then `0xB0`.  The
address `0xB0`, delivered after the zero, is appended: it is stored at `frames[1]` and
the frame count is 2. -/
theorem address_after_zero_is_appended :
    (Unwind_Backtrace [0xC0, 0, 0xB0] ⟨.null, .null, 0, fun _ => 0⟩).1.size = 2 ∧
    (Unwind_Backtrace [0xC0, 0, 0xB0] ⟨.null, .null, 0, fun _ => 0⟩).1.frames 1 = 0xB0 ∧
    Event.store_frame 1 0xB0
      ∈ (Unwind_Backtrace [0xC0, 0, 0xB0] ⟨.null, .null, 0, fun _ => 0⟩).2 := by
  refine ⟨by decide, by decide, by decide⟩

/-! ## The consumer thread and a failed `read` -/

set_option maxRecDepth 100000 in
/-- C21 (evaluation at the failing input): `eventfd` fails, so `notifier` is `-1`, and
the consumer thread is started.  Its `read` fails and delivers no notification, yet
`crash_callback` goes on: it formats `err_context` (on the untouched snapshot, whose
`si` and `sc` are null, this is undefined) and, with a snapshot that renders, invokes
the callback, passing whatever the uninitialised `data` holds (here 42) as the signal
number, although no invocation of the handler has written to a channel. -/
theorem failed_read_still_formats_and_calls :
    (init_native_crash platform_no_eventfd signals_fresh).world.notifier = -1 ∧
    (init_native_crash platform_no_eventfd signals_fresh).consumer_started = true ∧
    sys_read_eventfd (init_native_crash platform_no_eventfd signals_fresh).world.notifier 0
      = .failed ∧
    crash_callback true loader_sample .failed 42
        (init_native_crash platform_no_eventfd signals_fresh).world.err_context
      = .undefined ∧
    (∀ fd data, Event.sys_write fd data ∉
      (signal_callback [0x1000, 0x2010] SIGSEGV ⟨SIGSEGV, SEGV_MAPERR⟩ (.aarch64 sigcontext_sample)
        (init_native_crash platform_no_eventfd signals_fresh).world).trace) ∧
    crash_callback true loader_sample .failed 42
        (signal_callback [0x1000, 0x2010] SIGSEGV ⟨SIGSEGV, SEGV_MAPERR⟩
          (.aarch64 sigcontext_sample)
          (init_native_crash platform_no_eventfd signals_fresh).world).err_context
      = .returned [(42, report_sample)] := by
  refine ⟨by decide, by decide, by decide, by decide, ?_, by decide⟩
  intro fd data
  exact handle_faults_no_write
    [⟨[0x1000, 0x2010], SIGSEGV, ⟨SIGSEGV, SEGV_MAPERR⟩, .aarch64 sigcontext_sample⟩]
    (init_native_crash platform_no_eventfd signals_fresh).world (by decide)
    (by intro fd1 data1 hmem; exact absurd hmem (List.not_mem_nil _)) fd data

/-- After a failed `read` the thread function behaves as after a notification whose
value is the uninitialised content of `data`: the report is formatted and the callback
invoked all the same. -/
theorem crash_callback_ignores_read_failure (attach_ok : Bool) (env : Loader)
    (garbage : Nat) (err_context : err_context_t) :
    crash_callback attach_ok env .failed garbage err_context
      = crash_callback attach_ok env (.value garbage) garbage err_context := by
  unfold crash_callback
  rfl

/-! ## The symbol part of a frame line -/

theorem decInt_natCast (n : Nat) : decInt (n : Int) = decDigits n := by
  unfold decInt
  rw [if_neg (by omega)]
  simp

theorem wrapSigned_natCast (n : Nat) (h : n < 2 ^ 63) : wrapSigned 64 (n : Int) = n := by
  unfold wrapSigned
  have hmod : (n : Int) % (2 : Int) ^ 64 = n := Int.emod_eq_of_lt (by omega) (by omega)
  rw [hmod]
  have hlt : (n : Int) < (2 : Int) ^ (64 - 1) := by
    have : (n : Int) < 2 ^ 63 := by exact_mod_cast h
    simpa using this
  rw [if_pos hlt]

/-- The offset text of a frame whose symbol starts at or below the frame address. -/
theorem offset_text (bits pc saddr : Nat) (hle : saddr ≤ pc) (hbits : pc - saddr < 2 ^ bits)
    (h63 : pc - saddr < 2 ^ 63) :
    decInt (wrapSigned 64 (wrapUnsigned bits ((pc : Int) - (saddr : Int))))
      = decDigits (pc - saddr) := by
  have hcast : (pc : Int) - (saddr : Int) = ((pc - saddr : Nat) : Int) := by omega
  rw [hcast, wrapUnsigned_natCast, Nat.mod_eq_of_lt hbits, wrapSigned_natCast _ h63,
    decInt_natCast]

/-- C22: for every frame with a resolved symbol (in a snapshot whose header and register
dump render), the symbol part of the line shows `+` and the offset exactly when the
symbol's start address is non-null; the offset is the frame address minus the symbol's
start address, in decimal (for a start address at or below the frame address, as
`dladdr` reports it, a frame address that fits `uintptr_t`, and an offset below
`2^63`). -/
theorem offset_is_distance_from_symbol_start (env : Loader) (s : err_context_t)
    (si : siginfo_t) (sc : ucontext_t) (e r : String) (hsi : s.si = .live si)
    (hsc : s.sc = .live sc)
    (he : get_error_string sc.wordBits si.si_signo si.si_code (get_fault_address sc)
      = some e)
    (hr : get_register_snapshot sc = some r) :
    ∃ lines : List String, lines.length = s.size ∧
      dump_stacktrace env s
        = some (e ++ "\n" ++ r ++ "\n" ++ "backtrace: " ++ "\n" ++ String.join lines) ∧
      (∀ index info so_name sym, index < s.size →
        env.dladdr (s.frames index) = some info → info.dli_fname = some so_name →
        info.dli_sname = some sym →
        (info.dli_saddr ≠ 0 → info.dli_saddr ≤ s.frames index →
          s.frames index < 2 ^ sc.wordBits →
          s.frames index - info.dli_saddr < 2 ^ 63 →
          lines[index]? = some
            ("    #" ++ String.mk (padLeft '0' 2 (decDigits index))
              ++ "  pc  0x" ++ String.mk (hexDigits (s.frames index))
              ++ (if info.dli_fbase = 0 then "  <unknown>" else "  " ++ so_name)
              ++ " (" ++ (env.cxa_demangle sym).getD sym
              ++ "+" ++ String.mk (decDigits (s.frames index - info.dli_saddr))
              ++ ")" ++ "\n")) ∧
        (info.dli_saddr = 0 →
          lines[index]? = some
            ("    #" ++ String.mk (padLeft '0' 2 (decDigits index))
              ++ "  pc  0x" ++ String.mk (hexDigits (s.frames index))
              ++ (if info.dli_fbase = 0 then "  <unknown>" else "  " ++ so_name)
              ++ " (" ++ (env.cxa_demangle sym).getD sym
              ++ ")" ++ "\n"))) := by
  refine ⟨(List.range s.size).map
      (fun index => frame_line env sc.wordBits (s.frames index) index), by simp,
    dump_stacktrace_eq env s si sc e r hsi hsc he hr, ?_⟩
  intro index info so_name sym hlt hdl hname hsym
  rw [frame_lines_getElem env sc.wordBits s index hlt]
  refine ⟨?_, ?_⟩
  · intro hsaddr hle hword h63
    have hbits : s.frames index - info.dli_saddr < 2 ^ sc.wordBits :=
      Nat.lt_of_le_of_lt (Nat.sub_le _ _) hword
    simp only [frame_line, symbol_text, hdl, hname, hsym, hsaddr, ne_eq,
      not_false_eq_true, if_true, offset_text _ _ _ hle hbits h63, String.append_assoc]
  · intro hsaddr
    simp only [frame_line, symbol_text, hdl, hname, hsym, hsaddr, ne_eq,
      not_true_eq_false, if_false, String.append_assoc]
    rfl

set_option maxRecDepth 100000 in
/-- Witness of C22: frame 1 of `snapshot_sample`, at `0x2010`, in the symbol that starts
at `0x2004`: the offset shown is 12. -/
theorem offset_is_distance_from_symbol_start_witness :
    ∃ lines : List String,
      dump_stacktrace loader_sample snapshot_sample
        = some (header_sample ++ "\n" ++ regs_sample ++ "\n" ++ "backtrace: " ++ "\n"
            ++ String.join lines) ∧
      0x2010 - 0x2004 = 12 ∧
      lines[1]? = some "    #01  pc  0x2010  libfoo.so (foo()+12)\n" := by
  obtain ⟨lines, -, hdump, hline⟩ :=
    offset_is_distance_from_symbol_start loader_sample snapshot_sample
      ⟨SIGSEGV, SEGV_MAPERR⟩ (.aarch64 sigcontext_sample) header_sample regs_sample rfl rfl
      sample_header sample_regs
  refine ⟨lines, hdump, rfl, ?_⟩
  rw [(hline 1 ⟨some "libfoo.so", 0x2000, some "_Z3foov", 0x2004⟩ "libfoo.so" "_Z3foov"
    (by decide) (by decide) rfl rfl).1 (by decide) (by decide) (by decide) (by decide)]
  decide


/-- C24: for every frame of a snapshot (whose header and register dump render) that has
a line: when a symbol name is found the line shows, in parentheses after the module,
the demangled name if demangling succeeds and the raw name if it fails; when no symbol
name is found the line ends after the module, with no parenthesised part. -/
theorem symbol_name_demangled_or_raw (env : Loader) (s : err_context_t)
    (si : siginfo_t) (sc : ucontext_t) (e r : String) (hsi : s.si = .live si)
    (hsc : s.sc = .live sc)
    (he : get_error_string sc.wordBits si.si_signo si.si_code (get_fault_address sc)
      = some e)
    (hr : get_register_snapshot sc = some r) :
    ∃ lines : List String, lines.length = s.size ∧
      dump_stacktrace env s
        = some (e ++ "\n" ++ r ++ "\n" ++ "backtrace: " ++ "\n" ++ String.join lines) ∧
      (∀ index info so_name, index < s.size →
        env.dladdr (s.frames index) = some info → info.dli_fname = some so_name →
        (∀ sym demangled, info.dli_sname = some sym →
          env.cxa_demangle sym = some demangled →
          ∃ offset : String, lines[index]? = some
            ("    #" ++ String.mk (padLeft '0' 2 (decDigits index))
              ++ "  pc  0x" ++ String.mk (hexDigits (s.frames index))
              ++ (if info.dli_fbase = 0 then "  <unknown>" else "  " ++ so_name)
              ++ " (" ++ demangled ++ offset ++ ")" ++ "\n")) ∧
        (∀ sym, info.dli_sname = some sym → env.cxa_demangle sym = none →
          ∃ offset : String, lines[index]? = some
            ("    #" ++ String.mk (padLeft '0' 2 (decDigits index))
              ++ "  pc  0x" ++ String.mk (hexDigits (s.frames index))
              ++ (if info.dli_fbase = 0 then "  <unknown>" else "  " ++ so_name)
              ++ " (" ++ sym ++ offset ++ ")" ++ "\n")) ∧
        (info.dli_sname = none →
          lines[index]? = some
            ("    #" ++ String.mk (padLeft '0' 2 (decDigits index))
              ++ "  pc  0x" ++ String.mk (hexDigits (s.frames index))
              ++ (if info.dli_fbase = 0 then "  <unknown>" else "  " ++ so_name)
              ++ "\n"))) := by
  refine ⟨(List.range s.size).map
      (fun index => frame_line env sc.wordBits (s.frames index) index), by simp,
    dump_stacktrace_eq env s si sc e r hsi hsc he hr, ?_⟩
  intro index info so_name hlt hdl hname
  rw [frame_lines_getElem env sc.wordBits s index hlt]
  refine ⟨?_, ?_, ?_⟩
  · intro sym demangled hsym hdem
    refine ⟨if info.dli_saddr ≠ 0 then
        "+" ++ String.mk (decInt (wrapSigned 64
          (wrapUnsigned sc.wordBits ((s.frames index : Int) - (info.dli_saddr : Int)))))
      else "", ?_⟩
    simp only [frame_line, symbol_text, hdl, hname, hsym, hdem, Option.getD_some,
      String.append_assoc]
  · intro sym hsym hdem
    refine ⟨if info.dli_saddr ≠ 0 then
        "+" ++ String.mk (decInt (wrapSigned 64
          (wrapUnsigned sc.wordBits ((s.frames index : Int) - (info.dli_saddr : Int)))))
      else "", ?_⟩
    simp only [frame_line, symbol_text, hdl, hname, hsym, hdem, Option.getD_none,
      String.append_assoc]
  · intro hsym
    simp only [frame_line, symbol_text, hdl, hname, hsym, String.append_assoc]
    rfl

set_option maxRecDepth 100000 in
/-- Witness of C24: frame 1 of `snapshot_sample`; its symbol `_Z3foov` demangles to
`foo()`, which is what the line shows. -/
theorem symbol_name_demangled_or_raw_witness :
    ∃ (lines : List String) (offset : String),
      dump_stacktrace loader_sample snapshot_sample
        = some (header_sample ++ "\n" ++ regs_sample ++ "\n" ++ "backtrace: " ++ "\n"
            ++ String.join lines) ∧
      loader_sample.cxa_demangle "_Z3foov" = some "foo()" ∧
      lines[1]? = some ("    #01  pc  0x2010  libfoo.so (foo()" ++ offset ++ ")" ++ "\n") := by
  obtain ⟨lines, -, hdump, hline⟩ :=
    symbol_name_demangled_or_raw loader_sample snapshot_sample
      ⟨SIGSEGV, SEGV_MAPERR⟩ (.aarch64 sigcontext_sample) header_sample regs_sample rfl rfl
      sample_header sample_regs
  obtain ⟨offset, hoff⟩ :=
    (hline 1 ⟨some "libfoo.so", 0x2000, some "_Z3foov", 0x2004⟩ "libfoo.so"
      (by decide) (by decide) rfl).1 "_Z3foov" "foo()" rfl (by decide)
  refine ⟨lines, offset, hdump, by decide, ?_⟩
  rw [hoff]
  congr 4


/-! ## The fault address in the description, again -/

/-- For every entry of the table the description depends on the low 32 bits of the
fault address only. -/
theorem get_error_string_low_bits (e : TableEntry) (he : e ∈ description_table)
    (addr : Nat) :
    get_error_string 64 e.signal e.code addr
      = get_error_string 64 e.signal e.code (addr % 2 ^ 32) := by
  fin_cases he <;>
  · refine (asprintf_format _ _ addr _ _ _).trans ?_
    refine Eq.trans ?_ (asprintf_format _ _ (addr % 2 ^ 32) _ _ _).symm
    rw [Nat.mod_mod]

set_option maxRecDepth 100000 in
/-- C23 (evaluation at the failing input): on aarch64 the fault address of
`aarch64_sample` is `0x7fdeadbeef`; the description of SIGSEGV / SEGV_MAPERR at that
address is the description at `0xdeadbeef`, its digits after `fault addr: 0x` are
`deadbeef`; and for every entry of the table two addresses that agree in their low 32
bits get the same description. -/
theorem fault_address_digits_lose_high_bits :
    get_fault_address (.aarch64 aarch64_sample) = 0x7fdeadbeef ∧
    get_error_string 64 SIGSEGV SEGV_MAPERR (get_fault_address (.aarch64 aarch64_sample))
      = get_error_string 64 SIGSEGV SEGV_MAPERR 0xdeadbeef ∧
    occursIn "fault addr: 0xdeadbeef "
      ((get_error_string 64 SIGSEGV SEGV_MAPERR
        (get_fault_address (.aarch64 aarch64_sample))).getD "") ∧
    (∀ e ∈ description_table, ∀ addr : Nat,
      get_error_string 64 e.signal e.code (addr + 2 ^ 32)
        = get_error_string 64 e.signal e.code addr) := by
  refine ⟨by decide, by decide, by decide, ?_⟩
  intro e he addr
  rw [get_error_string_low_bits e he (addr + 2 ^ 32), get_error_string_low_bits e he addr,
    Nat.add_mod_right]

/-! ## The names of the SIGFPE sub-codes -/

set_option maxRecDepth 100000 in
/-- C25 (evaluation at the failing input): the description of SIGFPE / FPE_FLTDIV names
the sub-code `FPE_INTDIV`, the name the description of SIGFPE / FPE_INTDIV shows as
well; `FPE_FLTDIV` does not occur in it. -/
theorem fltdiv_rendered_as_intdiv :
    FPE_FLTDIV ≠ FPE_INTDIV ∧
    get_error_string 64 SIGFPE FPE_FLTDIV 0 = some fltdiv_description_sample ∧
    occursIn "code: 3 (FPE_INTDIV)" fltdiv_description_sample ∧
    ¬ occursIn "FPE_FLTDIV" fltdiv_description_sample ∧
    occursIn "code: 1 (FPE_INTDIV)" ((get_error_string 64 SIGFPE FPE_INTDIV 0).getD "") := by
  refine ⟨by decide, by decide, by decide, by decide, by decide⟩


/-! ## One line per resolved frame -/

/-- The line of a frame is empty exactly when the loader lookup fails or gives no module
path. -/
theorem frame_line_ne_empty (env : Loader) (ptrBits pc index : Nat) :
    frame_line env ptrBits pc index ≠ ""
      ↔ ((env.dladdr pc).bind (fun info => info.dli_fname)).isSome = true := by
  unfold frame_line
  cases hdl : env.dladdr pc with
  | none => simp
  | some info =>
    cases hname : info.dli_fname with
    | none => simp [hname]
    | some so_name =>
      simp only [Option.some_bind, hname, Option.isSome_some, iff_true]
      intro h
      have hdata := congrArg String.data h
      simp [String.data_append] at hdata

/-- C26: for every snapshot (whose header and register dump render) the frame section of
the report is the concatenation of one entry per captured frame, in capture order; the
entry of a frame whose loader lookup succeeds with a module path is one line that starts
with `#` and the capture index of the frame and ends with a newline; the entry of every
other frame is empty; so the number of frame lines is the number of such frames among
the captured ones, at most `size`. -/
theorem one_line_per_resolved_frame (env : Loader) (s : err_context_t) (si : siginfo_t)
    (sc : ucontext_t) (e r : String) (hsi : s.si = .live si) (hsc : s.sc = .live sc)
    (he : get_error_string sc.wordBits si.si_signo si.si_code (get_fault_address sc)
      = some e)
    (hr : get_register_snapshot sc = some r) :
    ∃ lines : List String, lines.length = s.size ∧
      dump_stacktrace env s
        = some (e ++ "\n" ++ r ++ "\n" ++ "backtrace: " ++ "\n" ++ String.join lines) ∧
      (∀ index info so_name, index < s.size →
        env.dladdr (s.frames index) = some info → info.dli_fname = some so_name →
        ∃ rest : String, lines[index]? = some
          ("    #" ++ String.mk (padLeft '0' 2 (decDigits index))
            ++ "  pc  0x" ++ String.mk (hexDigits (s.frames index))
            ++ rest ++ "\n")) ∧
      (∀ index, index < s.size → env.dladdr (s.frames index) = none →
        lines[index]? = some "") ∧
      (∀ index info, index < s.size → env.dladdr (s.frames index) = some info →
        info.dli_fname = none → lines[index]? = some "") ∧
      (lines.filter (fun line => line ≠ "")).length
        = ((List.range s.size).filter (fun index =>
            ((env.dladdr (s.frames index)).bind (fun info => info.dli_fname)).isSome)).length ∧
      (lines.filter (fun line => line ≠ "")).length ≤ s.size := by
  have hcount : (((List.range s.size).map
        (fun index => frame_line env sc.wordBits (s.frames index) index)).filter
          (fun line => line ≠ "")).length
      = ((List.range s.size).filter (fun index =>
          ((env.dladdr (s.frames index)).bind (fun info => info.dli_fname)).isSome)).length := by
    rw [List.filter_map, List.length_map]
    congr 1
    apply List.filter_congr
    intro index _
    have hiff := frame_line_ne_empty env sc.wordBits (s.frames index) index
    cases hres : ((env.dladdr (s.frames index)).bind (fun info => info.dli_fname)).isSome
    · rw [hres] at hiff
      simpa using hiff
    · rw [hres] at hiff
      simpa using hiff
  refine ⟨(List.range s.size).map
      (fun index => frame_line env sc.wordBits (s.frames index) index), by simp,
    dump_stacktrace_eq env s si sc e r hsi hsc he hr, ?_, ?_, ?_, hcount, ?_⟩
  · intro index info so_name hlt hdl hname
    rw [frame_lines_getElem env sc.wordBits s index hlt]
    refine ⟨(if info.dli_fbase = 0 then "  <unknown>" else "  " ++ so_name)
      ++ symbol_text env sc.wordBits (s.frames index) info, ?_⟩
    simp only [frame_line, hdl, hname, String.append_assoc]
  · intro index hlt hdl
    rw [frame_lines_getElem env sc.wordBits s index hlt]
    simp only [frame_line, hdl]
  · intro index info hlt hdl hname
    rw [frame_lines_getElem env sc.wordBits s index hlt]
    simp only [frame_line, hdl, hname]
  · rw [hcount]
    exact (List.length_filter_le _ _).trans (by simp)

set_option maxRecDepth 100000 in
/-- Witness of C26: `snapshot_sample` under `loader_sample`; frame 0 has no mapping and
no line, frame 1 has the one line of the report, which carries the index 1. -/
theorem one_line_per_resolved_frame_witness :
    ∃ (lines : List String) (rest : String),
      dump_stacktrace loader_sample snapshot_sample
        = some (header_sample ++ "\n" ++ regs_sample ++ "\n" ++ "backtrace: " ++ "\n"
            ++ String.join lines) ∧
      lines[0]? = some "" ∧
      lines[1]? = some ("    #01  pc  0x2010" ++ rest ++ "\n") ∧
      (lines.filter (fun line => line ≠ "")).length = 1 := by
  obtain ⟨lines, -, hdump, hline, hnone, -, hcount, -⟩ :=
    one_line_per_resolved_frame loader_sample snapshot_sample ⟨SIGSEGV, SEGV_MAPERR⟩
      (.aarch64 sigcontext_sample) header_sample regs_sample rfl rfl sample_header sample_regs
  obtain ⟨rest, hrest⟩ :=
    hline 1 ⟨some "libfoo.so", 0x2000, some "_Z3foov", 0x2004⟩ "libfoo.so"
      (by decide) (by decide) rfl
  refine ⟨lines, rest, hdump, hnone 0 (by decide) (by decide), ?_, ?_⟩
  · rw [hrest]
    congr 3
  · rw [hcount]
    decide

/-! ## The fault address by architecture -/

set_option maxRecDepth 100000 in
/-- C28 (evaluation at the failing input): for the pattern `"(a)\n\n)"` and the error
offset 5 (the last byte, on the third line, after an empty line) `strtok` yields the two
tokens `(a)` and `)`, and `query_init` reports row 1, column 1, while the byte is on line
2 (zero-based) at offset 0 of its line.  Without an empty line, in `"(a)\n)"` at offset 4,
the reported position is the position of the byte. -/
theorem empty_line_shifts_query_error_position :
    5 < "(a)\n\n)".data.length ∧
    strtok_lines [] "(a)\n\n)".data = ["(a)".data, ")".data] ∧
    query_syntax_error "(a)\n\n)".data 5 = (1, 1) ∧
    line_of_offset "(a)\n\n)".data 5 = 2 ∧
    column_of_offset "(a)\n\n)".data 5 = 0 ∧
    query_syntax_error "(a)\n)".data 4 = (1, 0) ∧
    line_of_offset "(a)\n)".data 4 = 1 ∧
    column_of_offset "(a)\n)".data 4 = 0 := by
  refine ⟨by decide, by decide, by decide, by decide, by decide, by decide, by decide,
    by decide⟩

/-! ## The kind of a symbol -/

/-- C29 (evaluation at the failing input): for a symbol of the kind
`TSSymbolTypeSupertype`, the kind `language_is_supertype` answers `true` for, the
`switch` of `language_symbol_type` has no case and runs into `UNREACHABLE()`; the three
other kinds are mapped to their constants. -/
theorem supertype_reaches_unreachable :
    language_is_supertype .TSSymbolTypeSupertype = true ∧
    language_symbol_type .TSSymbolTypeSupertype = none ∧
    language_symbol_type .TSSymbolTypeRegular = some .REGULAR ∧
    language_symbol_type .TSSymbolTypeAnonymous = some .ANONYMOUS ∧
    language_symbol_type .TSSymbolTypeAuxiliary = some .AUXILIARY := by
  refine ⟨by decide, rfl, rfl, rfl, rfl⟩

/-! ## The buffers of the out-of-bounds messages -/

theorem decDigits_length_uint32 (n : Nat) (h : n < 2 ^ 32) : (decDigits n).length ≤ 10 :=
  Nat.toDigitsCore_length 10 (by decide) (n + 1) n 10
    (Nat.lt_of_lt_of_le h (by decide)) (by decide)

theorem wrapUnsigned_lt (bits : Nat) (v : Int) : wrapUnsigned bits v < 2 ^ bits := by
  unfold wrapUnsigned
  have hpos : (0 : Int) < (2 : Int) ^ bits := by positivity
  have h1 := Int.emod_lt_of_pos v hpos
  have h0 := Int.emod_nonneg v (ne_of_gt hpos)
  have hcast : ((2 ^ bits : Nat) : Int) = (2 : Int) ^ bits := by push_cast; rfl
  omega

theorem asprintf_child_index (n : Nat) :
    asprintf 64 "Child index %u is out of bounds" [.int n]
      = some ("Child index " ++ String.mk (decDigits (n % 2 ^ 32)) ++ " is out of bounds") := by
  simp [asprintf, vformat, render_u, intBits, padLeft_zero, wrapUnsigned_natCast]
  apply String.ext
  simp [String.data_append]

theorem asprintf_pattern_index (n : Nat) :
    asprintf 64 "Pattern index %u is out of bounds" [.int n]
      = some ("Pattern index " ++ String.mk (decDigits (n % 2 ^ 32)) ++ " is out of bounds") := by
  simp [asprintf, vformat, render_u, intBits, padLeft_zero, wrapUnsigned_natCast]
  apply String.ext
  simp [String.data_append]

set_option maxRecDepth 100000 in
/-- C30: for every index (the `jint` argument, of which the low 32 bits are formatted
with `%u`) the message `Child index <index> is out of bounds` is written with its
terminator within the 40 bytes of its buffer, and the message
`Pattern index <index> is out of bounds` within 42 of the 45 bytes of its buffer: both
`sprintf` calls are defined.  The bound 40 is reached at the index `-1`. -/
theorem index_messages_fit_their_buffers (index : Int) :
    (∃ text : String, child_index_message index = some text ∧
      text = "Child index " ++ String.mk (decDigits (wrapUnsigned 32 index))
        ++ " is out of bounds" ∧
      text.data.length + 1 ≤ 40) ∧
    (∃ text : String, pattern_index_message index = some text ∧
      text = "Pattern index " ++ String.mk (decDigits (wrapUnsigned 32 index))
        ++ " is out of bounds" ∧
      text.data.length + 1 ≤ 42) ∧
    child_index_message (-1) = some "Child index 4294967295 is out of bounds" ∧
    "Child index 4294967295 is out of bounds".data.length + 1 = 40 := by
  have hlt := wrapUnsigned_lt 32 index
  have hmod : wrapUnsigned 32 index % 2 ^ 32 = wrapUnsigned 32 index := Nat.mod_eq_of_lt hlt
  have hlen := decDigits_length_uint32 (wrapUnsigned 32 index) hlt
  have hchild : ("Child index " ++ String.mk (decDigits (wrapUnsigned 32 index))
      ++ " is out of bounds").data.length + 1 ≤ 40 := by
    simp only [String.data_append, List.length_append]
    have h1 : "Child index ".data.length = 12 := by decide
    have h2 : " is out of bounds".data.length = 17 := by decide
    rw [h1, h2]
    omega
  have hpattern : ("Pattern index " ++ String.mk (decDigits (wrapUnsigned 32 index))
      ++ " is out of bounds").data.length + 1 ≤ 42 := by
    simp only [String.data_append, List.length_append]
    have h1 : "Pattern index ".data.length = 14 := by decide
    have h2 : " is out of bounds".data.length = 17 := by decide
    rw [h1, h2]
    omega
  refine ⟨⟨_, ?_, rfl, hchild⟩, ⟨_, ?_, rfl, hpattern⟩, by decide, by decide⟩
  · unfold child_index_message sprintf
    rw [asprintf_child_index, hmod]
    simp only [hchild, if_true]
  · unfold pattern_index_message sprintf
    rw [asprintf_pattern_index, hmod]
    have h45 : ("Pattern index " ++ String.mk (decDigits (wrapUnsigned 32 index))
        ++ " is out of bounds").data.length + 1 ≤ 45 := Nat.le_trans hpattern (by decide)
    simp only [h45, if_true]

end Crash
